import Mathlib

/-!
Shallow embedding of the lxd-csi-driver volume lifecycle engine.

The definitions below are translated from the repository source:
* the identifier codec (`getVolumeID`, `splitVolumeID`) from
  `internal/driver/driver.go`;
* the error classifier (`ToGRPCCode`) from `internal/errors` (the current
  revision, which remaps HTTP 412 precondition failures to `Unavailable`);
* the controller RPC handlers (`CreateVolume`, `DeleteVolume`,
  `ControllerPublishVolume`, `ControllerUnpublishVolume`,
  `ControllerExpandVolume`, `CreateSnapshot`, `DeleteSnapshot`) from the
  controller server source.

Go strings are modelled as `List Char` (`GoStr`); Go maps used by the driver
are modelled as association lists with Go's zero-value-on-missing-key read
semantics; the remote LXD API is modelled as a record of response functions
(`Remote`), and each handler additionally returns the trace of remote
operations and lock events it performed, so that statements such as
"no remote mutation is issued" are expressible.
-/

set_option maxRecDepth 4000

abbrev GoStr := List Char

/-- Convert a Lean string literal to the `GoStr` representation. -/
def gs (s : String) : GoStr := s.data

/-- Whether a Go string contains the given character
(`strings.Contains` with a single-character separator). -/
def goContains : GoStr → Char → Bool
  | [], _ => false
  | c :: r, x => c == x || goContains r x

/-- `strings.Cut(s, sep)` for a single-character separator: splits around the
first instance of `sep`, returning the text before, the text after, and
whether the separator was found. -/
def goCut : GoStr → Char → GoStr × GoStr × Bool
  | [], _ => ([], [], false)
  | c :: r, x =>
    if c == x then ([], r, true)
    else
      let t := goCut r x
      (c :: t.1, t.2.1, t.2.2)

/-- `strings.Split(s, sep)` for a single-character separator: all substrings
between instances of `sep`. -/
def goSplit : GoStr → Char → List GoStr
  | [], _ => [[]]
  | c :: r, x =>
    if c == x then [] :: goSplit r x
    else
      match goSplit r x with
      | [] => [[c]]
      | h :: t => (c :: h) :: t

/-- `strings.ReplaceAll(s, "-", "")`: remove every instance of the character. -/
def goRemoveAll (s : GoStr) (x : Char) : GoStr := s.filter (fun c => c ≠ x)

/-- `strings.HasPrefix`. -/
def goHasPrefix : GoStr → GoStr → Bool
  | _, [] => true
  | [], _ :: _ => false
  | c :: r, p :: q => c == p && goHasPrefix r q

/-- `getVolumeID` from `internal/driver/driver.go`: constructs the composite
volume ID `"[<clusterMember>:]<poolName>/<volName>"`. -/
def getVolumeID (clusterMember poolName volName : GoStr) : GoStr :=
  let volumeID := poolName ++ ['/'] ++ volName
  if clusterMember ≠ [] then clusterMember ++ [':'] ++ volumeID else volumeID

/-- `splitVolumeID` from `internal/driver/driver.go`: splits a volume ID into
cluster member, pool name, and volume name.  `none` models the error return. -/
def splitVolumeID (volumeID : GoStr) : Option (GoStr × GoStr × GoStr) :=
  let cut :=
    if goContains volumeID ':' then
      let t := goCut volumeID ':'
      (t.1, t.2.1)
    else
      ([], volumeID)
  let clusterMember := cut.1
  let rest := cut.2
  if rest = [] then none
  else
    match goSplit rest '/' with
    | [p, v] => some (clusterMember, p, v)
    | _ => none

/-- Modelled from the spec: `splitSnapshotID` (used by `DeleteSnapshot` but not
present in the available sources) decodes the composite snapshot identifier
`<VolumeIdentifier>/<snapshotName>`, i.e. `[<clusterMember>:]<pool>/<volume>/<snapshot>`,
into its four parts, analogously to `splitVolumeID`. -/
def splitSnapshotID (snapshotID : GoStr) : Option (GoStr × GoStr × GoStr × GoStr) :=
  let cut :=
    if goContains snapshotID ':' then
      let t := goCut snapshotID ':'
      (t.1, t.2.1)
    else
      ([], snapshotID)
  let clusterMember := cut.1
  let rest := cut.2
  if rest = [] then none
  else
    match goSplit rest '/' with
    | [p, v, s] => some (clusterMember, p, v, s)
    | _ => none

/-- gRPC status codes (`google.golang.org/grpc/codes`). -/
inductive Code where
  | ok
  | canceled
  | unknown
  | invalidArgument
  | deadlineExceeded
  | notFound
  | alreadyExists
  | permissionDenied
  | resourceExhausted
  | failedPrecondition
  | aborted
  | outOfRange
  | unimplemented
  | internal
  | unavailable
  | dataLoss
  | unauthenticated
  deriving DecidableEq, Repr

/-- Errors surfaced by the remote LXD API and by the Go context package.
`apiStatus` models `api.StatusError` carrying an HTTP status code;
`ctxDeadlineExceeded`/`ctxCanceled` model `context.DeadlineExceeded` and
`context.Canceled`; `other` models any other error value. -/
inductive GoError where
  | apiStatus (status : Nat) (msg : GoStr)
  | ctxDeadlineExceeded
  | ctxCanceled
  | other (msg : GoStr)
  deriving DecidableEq, Repr

/-- `api.StatusErrorCheck(err, code)`: whether the error is an API status error
with the given HTTP status code. -/
def statusErrorCheck : GoError → Nat → Bool
  | .apiStatus s _, n => s == n
  | _, _ => false

/-- `errors.Is(err, context.DeadlineExceeded)`. -/
def isCtxDeadlineExceeded : GoError → Bool
  | .ctxDeadlineExceeded => true
  | _ => false

/-- `errors.Is(err, context.Canceled)`. -/
def isCtxCanceled : GoError → Bool
  | .ctxCanceled => true
  | _ => false

/-- `ToGRPCCode` from `internal/errors`: maps a remote-API or context error to
a gRPC status code.  `none` models the Go `nil` error. -/
def ToGRPCCode : Option GoError → Code
  | none => .ok
  | some err =>
    if statusErrorCheck err 400 then .invalidArgument
    else if statusErrorCheck err 401 then .unauthenticated
    else if statusErrorCheck err 403 then .permissionDenied
    else if statusErrorCheck err 404 then .notFound
    else if statusErrorCheck err 409 then .alreadyExists
    else if statusErrorCheck err 412 then .unavailable
    else if isCtxDeadlineExceeded err then .deadlineExceeded
    else if isCtxCanceled err then .canceled
    else .internal

/-- Decimal digit run parser used by the `strconv.ParseInt` model:
`none` unless the string is nonempty and all characters are digits. -/
def parseDigits (s : GoStr) : Option Nat :=
  if s = [] then none
  else
    s.foldl
      (fun acc c =>
        acc.bind fun a => if c.isDigit then some (a * 10 + (c.toNat - 48)) else none)
      (some 0)

/-- `strconv.ParseInt(s, 10, 64)`: optional sign, decimal digits, with the
int64 range check; `none` models a parse error (including `ErrRange`). -/
def goParseInt64 (s : GoStr) : Option Int :=
  match s with
  | '+' :: r => (parseDigits r).bind fun n => if n ≤ 2 ^ 63 - 1 then some (n : Int) else none
  | '-' :: r => (parseDigits r).bind fun n => if n ≤ 2 ^ 63 then some (-(n : Int)) else none
  | _ => (parseDigits s).bind fun n => if n ≤ 2 ^ 63 - 1 then some (n : Int) else none

/-- `strconv.FormatInt(v, 10)`. -/
def goFormatInt (v : Int) : GoStr :=
  if v < 0 then '-' :: (Nat.repr v.natAbs).data else (Nat.repr v.natAbs).data


/-- Storage-class parameter key naming the LXD storage pool
(`ParameterStoragePool` in `internal/driver/driver.go`). -/
def ParameterStoragePool : GoStr := gs "storagePool"

/-- Internal parameter key carrying the resolved storage driver name forward. -/
def ParameterStorageDriver : GoStr := gs "internal.storageDriver"

/-- Orchestrator-internal parameter key with the PVC name. -/
def ParameterPVCName : GoStr := gs "csi.storage.k8s.io/pvc/name"

/-- Orchestrator-internal parameter key with the PVC namespace. -/
def ParameterPVCNamespace : GoStr := gs "csi.storage.k8s.io/pvc/namespace"

/-- Topology segment key naming the LXD cluster member. -/
def AnnotationLXDClusterMember : GoStr := gs "lxd.csi.canonical.com/cluster-member"

/-- Mount root used for filesystem volumes (`driverFileSystemMountPath`). -/
def driverFileSystemMountPath : GoStr := gs "/mnt/lxd-csi"

/-- `api.SourceTypeCopy` from the LXD API package. -/
def SourceTypeCopy : GoStr := gs "copy"

/-- Go maps from string to string, as association lists.  Reads of a missing
key yield the zero value `""`, as in Go. -/
abbrev GoMap := List (GoStr × GoStr)

/-- Go map read: value for the key, or the zero value `""` when absent. -/
def mapGet (m : GoMap) (k : GoStr) : GoStr :=
  ((m.find? (fun e => e.1 == k)).map Prod.snd).getD []

/-- Go map read with the comma-ok idiom. -/
def mapGet? (m : List (GoStr × GoMap)) (k : GoStr) : Option GoMap :=
  (m.find? (fun e => e.1 == k)).map Prod.snd

/-- Go map write. -/
def mapSet (m : GoMap) (k v : GoStr) : GoMap :=
  if m.any (fun e => e.1 == k) then m.map (fun e => if e.1 == k then (k, v) else e)
  else m ++ [(k, v)]

/-- The CSI volume capability access type: `Block`, `Mount`, or unset
(an unset oneof or a nil capability pointer). -/
inductive AccessType where
  | block
  | mount
  | unspecified
  deriving DecidableEq, Repr

/-- `csi.VolumeCapability`, reduced to the access type consulted by the driver. -/
structure VolumeCapability where
  accessType : AccessType
  deriving DecidableEq, Repr

/-- `ValidateVolumeCapabilities` from `internal/driver/capabilities.go`:
`none` on success, `some msg` mirroring the returned error. -/
def ValidateVolumeCapabilities (volCaps : List VolumeCapability) : Option GoStr :=
  if volCaps.length = 0 then some (gs "Request has no volume capabilities")
  else
    let accessTypeBlock := volCaps.any (fun c => c.accessType == .block)
    let accessTypeMount := volCaps.any (fun c => c.accessType == .mount)
    if !accessTypeBlock && !accessTypeMount then
      some (gs "VolumeCapability cannot have both the mount and the block access types undefined")
    else if accessTypeBlock && accessTypeMount then
      some (gs "VolumeCapability cannot have both the mount and the block access types defined")
    else none

/-- Modelled from the spec: `ParseContentType` (referenced by the controller
and node servers but not present in the available sources) maps the access
type of the given capabilities to the LXD volume content type: `"block"` for
block access, `"filesystem"` for mount access, and `""` when neither is set. -/
def ParseContentType (volCaps : List VolumeCapability) : GoStr :=
  if volCaps.any (fun c => c.accessType == .block) then gs "block"
  else if volCaps.any (fun c => c.accessType == .mount) then gs "filesystem"
  else gs ""

/-- Whether some capability carries the block access type. -/
def hasBlockAccess (volCaps : List VolumeCapability) : Bool :=
  volCaps.any (fun c => c.accessType == .block)

/-- Whether some capability carries the mount (filesystem) access type. -/
def hasMountAccess (volCaps : List VolumeCapability) : Bool :=
  volCaps.any (fun c => c.accessType == .mount)

/-- The capability set defines both block and filesystem access types, or
neither (including an empty capability list). -/
def capsBothOrNeither (volCaps : List VolumeCapability) : Bool :=
  (hasBlockAccess volCaps && hasMountAccess volCaps) ||
    (!hasBlockAccess volCaps && !hasMountAccess volCaps)

/-- The parameter map contains a key that is neither the storage-pool
parameter nor an orchestrator-internal `csi.storage.k8s.io/` key. -/
def hasInvalidStorageClassParameter (parameters : GoMap) : Bool :=
  parameters.any
    (fun e => !goHasPrefix e.1 (gs "csi.storage.k8s.io/") && !(e.1 == ParameterStoragePool))

/-- IEC unit suffix for a given power of 1024. -/
def iecUnit (k : Nat) : GoStr :=
  [gs "B", gs "KiB", gs "MiB", gs "GiB", gs "TiB", gs "PiB", gs "EiB"].getD k (gs "EiB")

/-- The power of 1024 of the IEC unit used for the given magnitude. -/
def iecExp (n : Nat) : Nat :=
  if n < 1024 then 0
  else if n < 1024 ^ 2 then 1
  else if n < 1024 ^ 3 then 2
  else if n < 1024 ^ 4 then 3
  else if n < 1024 ^ 5 then 4
  else if n < 1024 ^ 6 then 5
  else 6

/-- Modelled from the spec: the external `units.GetByteSizeStringIEC(b, 2)`
renderer ("both sizes rendered in human-readable binary units"), producing the
value scaled to the largest binary (IEC) unit below 1024, with two decimal
places (exact rational rounding standing in for the library's float
formatting). -/
def getByteSizeStringIEC (b : Int) : GoStr :=
  let sign : GoStr := if b < 0 then ['-'] else []
  let n := b.natAbs
  let k := iecExp n
  if k = 0 then sign ++ (Nat.repr n).data ++ gs "B"
  else
    let d := 1024 ^ k
    let scaled := (n * 100 + d / 2) / d
    let ip := scaled / 100
    let fp := scaled % 100
    let fpStr := if fp < 10 then '0' :: (Nat.repr fp).data else (Nat.repr fp).data
    sign ++ (Nat.repr ip).data ++ ['.'] ++ fpStr ++ iecUnit k


/-- `api.DevLXDStoragePool`, reduced to the driver name consulted by the controller. -/
structure StoragePool where
  driver : GoStr
  deriving DecidableEq, Repr

/-- `api.DevLXDServerStorageDriverInfo`. -/
structure DriverInfo where
  name : GoStr
  remote : Bool
  deriving DecidableEq, Repr

/-- `api.DevLXDServerState`, reduced to the supported storage drivers. -/
structure ServerState where
  supportedStorageDrivers : List DriverInfo
  deriving DecidableEq, Repr

/-- `api.DevLXDStorageVolume`, reduced to the fields the controller reads. -/
structure StorageVolume where
  contentType : GoStr
  config : GoMap
  deriving DecidableEq, Repr

/-- An instance device: a map of device properties. -/
abbrev Device := GoMap

/-- `api.DevLXDInstance`, reduced to its device map. -/
structure Instance where
  devices : List (GoStr × Device)
  deriving DecidableEq, Repr

/-- `api.DevLXDStorageVolumeSource` (copy source). -/
structure VolumeSource where
  typ : GoStr
  pool : GoStr
  name : GoStr
  location : GoStr
  deriving DecidableEq, Repr

/-- `api.DevLXDStorageVolumesPost`: a remote volume-create request. -/
structure VolumesPost where
  name : GoStr
  typ : GoStr
  contentType : GoStr
  source : Option VolumeSource
  description : GoStr
  config : GoMap
  deriving DecidableEq, Repr

/-- `api.DevLXDStorageVolumePut`: a remote volume-update request. -/
structure VolumePut where
  config : GoMap
  deriving DecidableEq, Repr

/-- `api.DevLXDInstancePut`, reduced to its device map; a `none` device models
the `nil` entry used to remove a device. -/
structure InstancePut where
  devices : List (GoStr × Option Device)
  deriving DecidableEq, Repr

/-- `api.DevLXDStorageVolumeSnapshotsPost`: a remote snapshot-create request. -/
structure SnapshotsPost where
  name : GoStr
  description : GoStr
  deriving DecidableEq, Repr

/-- A remote LXD API call issued by a handler.  The first `GoStr` argument of
each constructor is the cluster-member target the client was bound to
(`""` when unbound). -/
inductive RemoteOp where
  | getStoragePool (pool : GoStr)
  | getState
  | getVolume (target pool name : GoStr)
  | getInstance (target node : GoStr)
  | getSnapshot (target pool vol snap : GoStr)
  | createVolume (target pool : GoStr) (req : VolumesPost)
  | deleteVolume (target pool name : GoStr)
  | updateVolume (target pool name : GoStr) (req : VolumePut) (etag : GoStr)
  | updateInstance (target node : GoStr) (req : InstancePut) (etag : GoStr)
  | createSnapshot (target pool vol : GoStr) (req : SnapshotsPost)
  | deleteSnapshot (target pool vol snap : GoStr)
  deriving DecidableEq, Repr

/-- Whether a remote call mutates remote state. -/
def RemoteOp.isMutation : RemoteOp → Bool
  | .createVolume .. => true
  | .deleteVolume .. => true
  | .updateVolume .. => true
  | .updateInstance .. => true
  | .createSnapshot .. => true
  | .deleteSnapshot .. => true
  | _ => false

/-- An event in a handler's execution trace: a lock acquisition or release of
the per-resource try-lock, or a remote API call. -/
inductive Event where
  | lockAcquire (key : GoStr)
  | lockRelease (key : GoStr)
  | remote (op : RemoteOp)
  deriving DecidableEq, Repr

/-- Whether the event is a remote mutation. -/
def Event.isMutation : Event → Bool
  | .remote op => op.isMutation
  | _ => false

/-- The remote LXD endpoint, modelled as the responses it would give to each
call the controller can make.  `client` models `driver.DevLXDClient()`. -/
structure Remote where
  client : Except GoError Unit
  getStoragePool : GoStr → Except GoError StoragePool
  getState : Except GoError ServerState
  getVolume : GoStr → GoStr → GoStr → Except GoError (StorageVolume × GoStr)
  getInstance : GoStr → GoStr → Except GoError (Instance × GoStr)
  getSnapshot : GoStr → GoStr → GoStr → GoStr → Except GoError Unit
  createVolume : GoStr → GoStr → VolumesPost → Except GoError Unit
  deleteVolume : GoStr → GoStr → GoStr → Except GoError Unit
  updateVolume : GoStr → GoStr → GoStr → VolumePut → GoStr → Except GoError Unit
  updateInstance : GoStr → GoStr → InstancePut → GoStr → Except GoError Unit
  createSnapshot : GoStr → GoStr → GoStr → SnapshotsPost → Except GoError Unit
  deleteSnapshot : GoStr → GoStr → GoStr → GoStr → Except GoError Unit

/-- The driver configuration consulted by the controller handlers. -/
structure Driver where
  isClustered : Bool
  volumeNamePrefix : GoStr
  deriving DecidableEq, Repr

/-- A gRPC status error returned by a handler. -/
structure CsiErr where
  code : Code
  msg : GoStr
  deriving DecidableEq, Repr

/-- `locking.TryLock` plus the deferred unlock: if the key is held by another
in-flight operation the handler aborts immediately; otherwise the body runs
between a lock-acquire and a lock-release event. -/
def withLock (opName key : GoStr) (locks : List GoStr)
    (body : List Event × Except CsiErr α) : List Event × Except CsiErr α :=
  if key ∈ locks then
    ([], .error ⟨.aborted, opName ++ gs ": Failed to obtain lock " ++ key⟩)
  else
    (Event.lockAcquire key :: body.1 ++ [Event.lockRelease key], body.2)

/-- The trace shape of a handler that acquired and later released the
per-resource lock on `key`: some prefix, the acquisition, the locked body,
and the release as the final action of the locked section. -/
def lockFreeShape (key : GoStr) (tr : List Event) : Prop :=
  ∃ pre body, tr = pre ++ Event.lockAcquire key :: body ++ [Event.lockRelease key]

/-- `csi.CapacityRange`, reduced to the required bytes read by the driver. -/
structure CapacityRange where
  requiredBytes : Int
  deriving DecidableEq, Repr

/-- `csi.VolumeContentSource`: a snapshot source, a volume source, or an unset
oneof (the switch's default arm). -/
inductive ContentSource where
  | snapshot (snapshotId : GoStr)
  | volume (volumeId : GoStr)
  | unspecified
  deriving DecidableEq, Repr

/-- A CSI topology: a map of segment key/values. -/
structure Topology where
  segments : GoMap
  deriving DecidableEq, Repr

/-- `csi.TopologyRequirement`, reduced to the preferred list the driver reads. -/
structure TopologyRequirement where
  preferred : List Topology
  deriving DecidableEq, Repr

/-- `csi.CreateVolumeRequest`, reduced to the fields the controller reads. -/
structure CreateVolumeRequest where
  name : GoStr
  capacityRange : CapacityRange
  volumeCapabilities : List VolumeCapability
  parameters : GoMap
  volumeContentSource : Option ContentSource
  accessibilityRequirements : Option TopologyRequirement
  deriving DecidableEq, Repr

/-- `csi.DeleteVolumeRequest`. -/
structure DeleteVolumeRequest where
  volumeId : GoStr
  deriving DecidableEq, Repr

/-- `csi.ControllerPublishVolumeRequest`, reduced to the fields read. -/
structure ControllerPublishVolumeRequest where
  volumeId : GoStr
  nodeId : GoStr
  volumeCapability : VolumeCapability
  deriving DecidableEq, Repr

/-- `csi.ControllerUnpublishVolumeRequest`, reduced to the fields read. -/
structure ControllerUnpublishVolumeRequest where
  volumeId : GoStr
  nodeId : GoStr
  deriving DecidableEq, Repr

/-- `csi.ControllerExpandVolumeRequest`, reduced to the fields read. -/
structure ControllerExpandVolumeRequest where
  volumeId : GoStr
  capacityRange : CapacityRange
  volumeCapability : VolumeCapability
  deriving DecidableEq, Repr

/-- `csi.CreateSnapshotRequest`, reduced to the fields read. -/
structure CreateSnapshotRequest where
  name : GoStr
  sourceVolumeId : GoStr
  deriving DecidableEq, Repr

/-- `csi.DeleteSnapshotRequest`. -/
structure DeleteSnapshotRequest where
  snapshotId : GoStr
  deriving DecidableEq, Repr

/-- `csi.CreateVolumeResponse`, reduced to the fields the driver sets. -/
structure CreateVolumeResponse where
  volumeId : GoStr
  capacityBytes : Int
  volumeContext : GoMap
  contentSource : Option ContentSource
  accessibleTopology : List GoMap
  deriving DecidableEq, Repr

/-- `csi.ControllerExpandVolumeResponse`. -/
structure ExpandVolumeResponse where
  capacityBytes : Int
  nodeExpansionRequired : Bool
  deriving DecidableEq, Repr

/-- `csi.CreateSnapshotResponse`, reduced to the fields the driver sets. -/
structure CreateSnapshotResponse where
  snapshotId : GoStr
  sourceVolumeId : GoStr
  readyToUse : Bool
  deriving DecidableEq, Repr

/-- `client.UseTarget(target)` guarded by `target != "" && driver.isClustered`:
the cluster-member target the client is bound to for the rest of the call. -/
def boundTarget (d : Driver) (target : GoStr) : GoStr :=
  if target ≠ [] ∧ d.isClustered then target else []

/-- `DeleteVolume` body after the try-lock: issue the remote delete and treat
a Not-Found response as success. -/
def deleteVolumeLocked (rem : Remote) (ct poolName volName : GoStr) :
    List Event × Except CsiErr Unit :=
  let ev := [Event.remote (.deleteVolume ct poolName volName)]
  match rem.deleteVolume ct poolName volName with
  | .ok _ => (ev, .ok ())
  | .error e =>
    if statusErrorCheck e 404 then (ev, .ok ())
    else
      (ev, .error ⟨ToGRPCCode (some e),
        gs "DeleteVolume: Failed to delete volume " ++ volName ++
          gs " from storage pool " ++ poolName⟩)

/-- `controllerServer.DeleteVolume`. -/
def DeleteVolume (d : Driver) (rem : Remote) (locks : List GoStr)
    (req : DeleteVolumeRequest) : List Event × Except CsiErr Unit :=
  match rem.client with
  | .error e => ([], .error ⟨ToGRPCCode (some e), gs "DeleteVolume: client error"⟩)
  | .ok _ =>
    match splitVolumeID req.volumeId with
    | none => ([], .error ⟨.invalidArgument, gs "DeleteVolume: invalid volume ID"⟩)
    | some (target, poolName, volName) =>
      let ct := boundTarget d target
      withLock (gs "DeleteVolume") req.volumeId locks
        (deleteVolumeLocked rem ct poolName volName)

/-- `DeleteSnapshot` body after the try-lock: issue the remote snapshot delete
and treat a Not-Found response as success. -/
def deleteSnapshotLocked (rem : Remote) (ct poolName volName snapshotName : GoStr) :
    List Event × Except CsiErr Unit :=
  let ev := [Event.remote (.deleteSnapshot ct poolName volName snapshotName)]
  match rem.deleteSnapshot ct poolName volName snapshotName with
  | .ok _ => (ev, .ok ())
  | .error e =>
    if statusErrorCheck e 404 then (ev, .ok ())
    else (ev, .error ⟨ToGRPCCode (some e), gs "DeleteSnapshot: remote error"⟩)

/-- `controllerServer.DeleteSnapshot`. -/
def DeleteSnapshot (d : Driver) (rem : Remote) (locks : List GoStr)
    (req : DeleteSnapshotRequest) : List Event × Except CsiErr Unit :=
  match rem.client with
  | .error e => ([], .error ⟨ToGRPCCode (some e), gs "DeleteSnapshot: client error"⟩)
  | .ok _ =>
    match splitSnapshotID req.snapshotId with
    | none => ([], .error ⟨.invalidArgument, gs "DeleteSnapshot: invalid snapshot ID"⟩)
    | some (target, poolName, volName, snapshotName) =>
      let ct := boundTarget d target
      withLock (gs "DeleteSnapshot") req.snapshotId locks
        (deleteSnapshotLocked rem ct poolName volName snapshotName)

/-- `ControllerUnpublishVolume` body after the try-lock: remove the device by
setting its entry to nil, and treat a Not-Found response as success. -/
def controllerUnpublishLocked (rem : Remote) (nodeId volName : GoStr) :
    List Event × Except CsiErr Unit :=
  let reqInst : InstancePut := ⟨[(volName, none)]⟩
  let ev := [Event.remote (.updateInstance [] nodeId reqInst [])]
  match rem.updateInstance [] nodeId reqInst [] with
  | .ok _ => (ev, .ok ())
  | .error e =>
    if statusErrorCheck e 404 then (ev, .ok ())
    else
      (ev, .error ⟨ToGRPCCode (some e),
        gs "ControllerUnpublishVolume: Failed to detach volume " ++ volName⟩)

/-- `controllerServer.ControllerUnpublishVolume`. -/
def ControllerUnpublishVolume (d : Driver) (rem : Remote) (locks : List GoStr)
    (req : ControllerUnpublishVolumeRequest) : List Event × Except CsiErr Unit :=
  match rem.client with
  | .error e =>
    ([], .error ⟨ToGRPCCode (some e), gs "ControllerUnpublishVolume: client error"⟩)
  | .ok _ =>
    match splitVolumeID req.volumeId with
    | none =>
      ([], .error ⟨.invalidArgument, gs "ControllerUnpublishVolume: invalid volume ID"⟩)
    | some (_, _, volName) =>
      withLock (gs "ControllerUnpublishVolume") req.volumeId locks
        (controllerUnpublishLocked rem req.nodeId volName)

/-- `ControllerPublishVolume` body after the try-lock: confirm the volume
exists, fetch the instance, and attach the disk device unless an equal device
is already present. -/
def controllerPublishLocked (rem : Remote)
    (ct poolName volName nodeId contentType : GoStr) :
    List Event × Except CsiErr Unit :=
  let ev1 := [Event.remote (.getVolume ct poolName volName)]
  match rem.getVolume ct poolName volName with
  | .error e =>
    if statusErrorCheck e 404 then
      (ev1, .error ⟨.notFound,
        gs "ControllerPublishVolume: Volume " ++ volName ++
          gs " not found in storage pool " ++ poolName⟩)
    else
      (ev1, .error ⟨ToGRPCCode (some e),
        gs "ControllerPublishVolume: Failed to retrieve volume " ++ volName⟩)
  | .ok _ =>
    let ev2 := ev1 ++ [Event.remote (.getInstance ct nodeId)]
    match rem.getInstance ct nodeId with
    | .error e => (ev2, .error ⟨ToGRPCCode (some e), gs "ControllerPublishVolume: instance error"⟩)
    | .ok (inst, etag) =>
      match mapGet? inst.devices volName with
      | some dev =>
        if mapGet dev (gs "type") ≠ gs "disk" ∨ mapGet dev (gs "source") ≠ volName ∨
            mapGet dev (gs "pool") ≠ poolName then
          (ev2, .error ⟨.alreadyExists,
            gs "ControllerPublishVolume: Device " ++ volName ++ gs " already exists on node " ++
              nodeId ++ gs " but does not match expected parameters"⟩)
        else (ev2, .ok ())
      | none =>
        let baseDev : Device :=
          [(gs "source", volName), (gs "pool", poolName), (gs "type", gs "disk")]
        let dev :=
          if contentType = gs "filesystem" then
            baseDev ++ [(gs "path", driverFileSystemMountPath ++ ['/'] ++ volName)]
          else baseDev
        let reqInst : InstancePut := ⟨[(volName, some dev)]⟩
        let ev3 := ev2 ++ [Event.remote (.updateInstance ct nodeId reqInst etag)]
        match rem.updateInstance ct nodeId reqInst etag with
        | .error e =>
          (ev3, .error ⟨ToGRPCCode (some e),
            gs "ControllerPublishVolume: Failed to attach volume " ++ volName⟩)
        | .ok _ => (ev3, .ok ())

/-- `controllerServer.ControllerPublishVolume`. -/
def ControllerPublishVolume (d : Driver) (rem : Remote) (locks : List GoStr)
    (req : ControllerPublishVolumeRequest) : List Event × Except CsiErr Unit :=
  match rem.client with
  | .error e =>
    ([], .error ⟨ToGRPCCode (some e), gs "ControllerPublishVolume: client error"⟩)
  | .ok _ =>
    match splitVolumeID req.volumeId with
    | none =>
      ([], .error ⟨.invalidArgument, gs "ControllerPublishVolume: invalid volume ID"⟩)
    | some (target, poolName, volName) =>
      let ct := boundTarget d target
      let contentType := ParseContentType [req.volumeCapability]
      if contentType = [] then
        ([], .error ⟨.invalidArgument,
          gs "ControllerPublishVolume: Volume capability must specify either block or filesystem access type"⟩)
      else
        withLock (gs "ControllerPublishVolume") req.volumeId locks
          (controllerPublishLocked rem ct poolName volName req.nodeId contentType)

/-- The shrink-rejection message of `ControllerExpandVolume`, with both sizes
rendered in binary (IEC) units. -/
def expandShrinkMsg (oldSizeBytes newSizeBytes : Int) : GoStr :=
  gs "ExpandVolume: Requested size \"" ++ getByteSizeStringIEC newSizeBytes ++
    gs "\" is less than the current size \"" ++ getByteSizeStringIEC oldSizeBytes ++ gs "\""

/-- `ControllerExpandVolume` body after the try-lock: fetch the volume, parse
its current size, and compare against the requested size. -/
def controllerExpandLocked (rem : Remote) (ct poolName volName : GoStr)
    (newSizeBytes : Int) : List Event × Except CsiErr ExpandVolumeResponse :=
  let ev1 := [Event.remote (.getVolume ct poolName volName)]
  match rem.getVolume ct poolName volName with
  | .error e => (ev1, .error ⟨ToGRPCCode (some e), gs "ExpandVolume: volume error"⟩)
  | .ok (vol, etag) =>
    let oldSize := mapGet vol.config (gs "size")
    if oldSize = [] then
      (ev1, .error ⟨.internal,
        gs "ExpandVolume: Volume " ++ volName ++ gs " in storage pool " ++ poolName ++
          gs " does not have size configured"⟩)
    else
      match goParseInt64 oldSize with
      | none =>
        (ev1, .error ⟨.internal,
          gs "ExpandVolume: Failed to parse current volume size " ++ oldSize⟩)
      | some oldSizeBytes =>
        if newSizeBytes < oldSizeBytes then
          (ev1, .error ⟨.invalidArgument, expandShrinkMsg oldSizeBytes newSizeBytes⟩)
        else if newSizeBytes = oldSizeBytes then
          (ev1, .ok ⟨newSizeBytes, false⟩)
        else
          let volReq : VolumePut := ⟨[(gs "size", goFormatInt newSizeBytes)]⟩
          let ev2 := ev1 ++ [Event.remote (.updateVolume ct poolName volName volReq etag)]
          match rem.updateVolume ct poolName volName volReq etag with
          | .error e =>
            (ev2, .error ⟨ToGRPCCode (some e), gs "ExpandVolume: Failed to expand volume"⟩)
          | .ok _ => (ev2, .ok ⟨newSizeBytes, false⟩)

/-- `controllerServer.ControllerExpandVolume`. -/
def ControllerExpandVolume (d : Driver) (rem : Remote) (locks : List GoStr)
    (req : ControllerExpandVolumeRequest) :
    List Event × Except CsiErr ExpandVolumeResponse :=
  match rem.client with
  | .error e => ([], .error ⟨ToGRPCCode (some e), gs "ExpandVolume: client error"⟩)
  | .ok _ =>
    match splitVolumeID req.volumeId with
    | none => ([], .error ⟨.invalidArgument, gs "ExpandVolume: invalid volume ID"⟩)
    | some (target, poolName, volName) =>
      let ct := boundTarget d target
      match ValidateVolumeCapabilities [req.volumeCapability] with
      | some e => ([], .error ⟨.invalidArgument, gs "ExpandVolume: " ++ e⟩)
      | none =>
        withLock (gs "ExpandVolume") req.volumeId locks
          (controllerExpandLocked rem ct poolName volName req.capacityRange.requiredBytes)

/-- `CreateSnapshot` body after the try-lock: check for an existing snapshot of
that name and create it only when absent. -/
def createSnapshotLocked (rem : Remote) (ct poolName volName snapshotName : GoStr) :
    List Event × Except CsiErr Unit :=
  let ev1 := [Event.remote (.getSnapshot ct poolName volName snapshotName)]
  match rem.getSnapshot ct poolName volName snapshotName with
  | .ok _ => (ev1, .ok ())
  | .error e =>
    if !statusErrorCheck e 404 then
      (ev1, .error ⟨ToGRPCCode (some e),
        gs "CreateSnapshot: Failed to retrieve snapshot " ++ snapshotName⟩)
    else
      let snapshotReq : SnapshotsPost :=
        ⟨snapshotName, gs "Managed by Kubernetes VolumeSnapshot " ++ snapshotName⟩
      let ev2 := ev1 ++ [Event.remote (.createSnapshot ct poolName volName snapshotReq)]
      match rem.createSnapshot ct poolName volName snapshotReq with
      | .error e2 => (ev2, .error ⟨ToGRPCCode (some e2), gs "CreateSnapshot: remote error"⟩)
      | .ok _ => (ev2, .ok ())

/-- `controllerServer.CreateSnapshot`. -/
def CreateSnapshot (d : Driver) (rem : Remote) (locks : List GoStr)
    (req : CreateSnapshotRequest) : List Event × Except CsiErr CreateSnapshotResponse :=
  match rem.client with
  | .error e => ([], .error ⟨ToGRPCCode (some e), gs "CreateSnapshot: client error"⟩)
  | .ok _ =>
    if req.name = [] then
      ([], .error ⟨.invalidArgument, gs "CreateSnapshot: Snapshot name cannot be empty"⟩)
    else if req.sourceVolumeId = [] then
      ([], .error ⟨.invalidArgument, gs "CreateSnapshot: Source volume ID cannot be empty"⟩)
    else
      let t := goCut req.name '-'
      if t.2.2 = false then
        ([], .error ⟨.invalidArgument,
          gs "CreateVolume: Unexpected volume name format: " ++ req.name⟩)
      else
        let snapshotName := t.1 ++ ['-'] ++ goRemoveAll t.2.1 '-'
        let snapshotID := req.sourceVolumeId ++ ['/'] ++ snapshotName
        match splitVolumeID req.sourceVolumeId with
        | none => ([], .error ⟨.invalidArgument, gs "CreateSnapshot: invalid volume ID"⟩)
        | some (target, poolName, volName) =>
          let ct := boundTarget d target
          let r := withLock (gs "CreateSnapshot") snapshotID locks
            (createSnapshotLocked rem ct poolName volName snapshotName)
          (r.1,
            match r.2 with
            | .error e => .error e
            | .ok _ => .ok ⟨snapshotID, req.sourceVolumeId, true⟩)

/-- The first cluster-member target found among the preferred topologies
(the target-selection loop of `CreateVolume` for non-remote drivers). -/
def findPreferredTarget : Option TopologyRequirement → GoStr
  | none => []
  | some tr =>
    match tr.preferred.find? (fun t => t.segments.any (fun e => e.1 == AnnotationLXDClusterMember)) with
    | none => []
    | some topo => mapGet topo.segments AnnotationLXDClusterMember

/-- The values computed by the validation and pool/driver-resolution prefix of
`CreateVolume`, up to the point where the volume ID is locked. -/
structure CreatePre where
  volName : GoStr
  contentType : GoStr
  sizeBytes : Int
  poolName : GoStr
  parameters : GoMap
  driverName : GoStr
  target : GoStr
  accessibleTopology : List GoMap
  clientTarget : GoStr
  volumeID : GoStr
  deriving DecidableEq, Repr

/-- The prefix of `controllerServer.CreateVolume` before the try-lock: name
derivation, capability/content-type/size/parameter validation, pool and
server-state lookup, driver matching, and topology/target resolution. -/
def createVolumePre (d : Driver) (rem : Remote) (req : CreateVolumeRequest) :
    List Event × Except CsiErr CreatePre :=
  match rem.client with
  | .error e => ([], .error ⟨ToGRPCCode (some e), gs "CreateVolume: client error"⟩)
  | .ok _ =>
    let t := goCut req.name '-'
    if t.2.2 = false then
      ([], .error ⟨.invalidArgument,
        gs "CreateVolume: Unexpected volume name format: " ++ req.name⟩)
    else
      let volPrefix := if d.volumeNamePrefix ≠ [] then d.volumeNamePrefix else t.1
      let volName := volPrefix ++ ['-'] ++ goRemoveAll t.2.1 '-'
      match ValidateVolumeCapabilities req.volumeCapabilities with
      | some e => ([], .error ⟨.invalidArgument, gs "CreateVolume: " ++ e⟩)
      | none =>
        let contentType := ParseContentType req.volumeCapabilities
        if contentType = [] then
          ([], .error ⟨.invalidArgument,
            gs "CreateVolume: Volume capability must specify either block or filesystem access type"⟩)
        else
          let sizeBytes := req.capacityRange.requiredBytes
          if sizeBytes < 1 then
            ([], .error ⟨.invalidArgument,
              gs "CreateVolume: Volume size cannot be zero or negative"⟩)
          else
            match req.parameters.find?
                (fun e => !goHasPrefix e.1 (gs "csi.storage.k8s.io/") && !(e.1 == ParameterStoragePool)) with
            | some e =>
              ([], .error ⟨.invalidArgument,
                gs "CreateVolume: Invalid parameter " ++ e.1 ++ gs " in storage class"⟩)
            | none =>
              let parameters := req.parameters
              let poolName := mapGet parameters ParameterStoragePool
              if poolName = [] then
                ([], .error ⟨.invalidArgument,
                  gs "CreateVolume: Storage class parameter " ++ ParameterStoragePool ++
                    gs " is required and cannot be empty"⟩)
              else
                let ev1 := [Event.remote (.getStoragePool poolName)]
                match rem.getStoragePool poolName with
                | .error e =>
                  (ev1, .error ⟨ToGRPCCode (some e),
                    gs "CreateVolume: Failed to retrieve storage pool " ++ poolName⟩)
                | .ok pool =>
                  let ev2 := ev1 ++ [Event.remote .getState]
                  match rem.getState with
                  | .error e => (ev2, .error ⟨ToGRPCCode (some e), gs "CreateVolume: state error"⟩)
                  | .ok state =>
                    match state.supportedStorageDrivers.find? (fun di => di.name == pool.driver) with
                    | none =>
                      (ev2, .error ⟨.invalidArgument,
                        gs "CreateVolume: CSI does not support storage driver " ++ pool.driver⟩)
                    | some di =>
                      if di.name == gs "cephobject" then
                        (ev2, .error ⟨.invalidArgument,
                          gs "CreateVolume: CSI does not support storage driver " ++ pool.driver⟩)
                      else
                        let target := if di.remote then [] else findPreferredTarget req.accessibilityRequirements
                        let accessibleTopology : List GoMap :=
                          if !di.remote && !(target == []) then [[(AnnotationLXDClusterMember, target)]]
                          else []
                        let clientTarget :=
                          if !di.remote && !(target == []) && d.isClustered then target else []
                        let volumeID := getVolumeID target poolName volName
                        (ev2, .ok ⟨volName, contentType, sizeBytes, poolName, parameters,
                          di.name, target, accessibleTopology, clientTarget, volumeID⟩)

/-- The volume description derived from the PVC parameters. -/
def createVolumeDescription (parameters : GoMap) : GoStr :=
  let base := gs "Managed by Kubernetes PVC"
  let pvcName := mapGet parameters ParameterPVCName
  if pvcName = [] then base
  else
    let pvcNamespace := mapGet parameters ParameterPVCNamespace
    let pvcIdentifier :=
      if pvcNamespace ≠ [] then pvcNamespace ++ ['/'] ++ pvcName else pvcName
    base ++ [' '] ++ pvcIdentifier

/-- The successful `CreateVolume` response: the volume ID, the requested
capacity, the parameters stamped with the resolved driver name, the echoed
content source, and the accessible topology. -/
def createVolumeResponse (req : CreateVolumeRequest) (pre : CreatePre) :
    CreateVolumeResponse :=
  ⟨pre.volumeID, pre.sizeBytes, mapSet pre.parameters ParameterStorageDriver pre.driverName,
    req.volumeContentSource, pre.accessibleTopology⟩

/-- The creation step of `CreateVolume`: dispatch on the content source and
issue the remote (copy-)create request. -/
def createVolumeCreate (d : Driver) (rem : Remote) (req : CreateVolumeRequest)
    (pre : CreatePre) : List Event × Except CsiErr CreateVolumeResponse :=
  let volumeDescription := createVolumeDescription pre.parameters
  match req.volumeContentSource with
  | some (.snapshot _) =>
    ([], .error ⟨.unimplemented,
      gs "CreateVolume: Using snapshot as volume source is not supported"⟩)
  | some .unspecified =>
    ([], .error ⟨.invalidArgument, gs "CreateVolume: Unsupported source volume content"⟩)
  | some (.volume sourceVolID) =>
    match splitVolumeID sourceVolID with
    | none => ([], .error ⟨.invalidArgument, gs "CreateVolume: invalid source volume ID"⟩)
    | some (st0, sourcePoolName, sourceVolName) =>
      let sourceClientTarget := if d.isClustered then st0 else pre.clientTarget
      let sourceTarget := if d.isClustered then st0 else []
      let ev1 := [Event.remote (.getVolume sourceClientTarget sourcePoolName sourceVolName)]
      match rem.getVolume sourceClientTarget sourcePoolName sourceVolName with
      | .error e =>
        (ev1, .error ⟨ToGRPCCode (some e), gs "CreateVolume: Failed to retrieve source volume"⟩)
      | .ok (sourceVol, _) =>
        if sourceVol.contentType ≠ pre.contentType then
          (ev1, .error ⟨.invalidArgument,
            gs "CreateVolume: Content type " ++ sourceVol.contentType ++ gs " of volume " ++
              sourceVolName ++ gs " does not match the requested volume content type " ++
              pre.contentType⟩)
        else
          let sourceVolSize := mapGet sourceVol.config (gs "size")
          if sourceVolSize = [] then
            (ev1, .error ⟨.failedPrecondition,
              gs "CreateVolume: Cannot determine size of the source volume " ++ sourceVolName ++
                gs ": Size is not configured"⟩)
          else
            match goParseInt64 sourceVolSize with
            | none =>
              (ev1, .error ⟨.internal,
                gs "CreateVolume: Failed to parse size " ++ sourceVolSize ++
                  gs " of the source volume " ++ sourceVolName⟩)
            | some sourceVolSizeBytes =>
              if sourceVolSizeBytes > pre.sizeBytes then
                (ev1, .error ⟨.invalidArgument,
                  gs "CreateVolume: Source volume size " ++ goFormatInt sourceVolSizeBytes ++
                    gs " is larger than the volume size " ++ goFormatInt pre.sizeBytes⟩)
              else
                let poolReq : VolumesPost :=
                  ⟨pre.volName, gs "custom", pre.contentType,
                    some ⟨SourceTypeCopy, sourcePoolName, sourceVolName, sourceTarget⟩,
                    volumeDescription, [(gs "size", goFormatInt pre.sizeBytes)]⟩
                let ev2 := ev1 ++ [Event.remote (.createVolume pre.clientTarget pre.poolName poolReq)]
                (ev2,
                  match rem.createVolume pre.clientTarget pre.poolName poolReq with
                  | .error e =>
                    .error ⟨ToGRPCCode (some e), gs "CreateVolume: Failed to create volume from source"⟩
                  | .ok _ => .ok (createVolumeResponse req pre))
  | none =>
    let poolReq : VolumesPost :=
      ⟨pre.volName, gs "custom", pre.contentType, none, volumeDescription,
        [(gs "size", goFormatInt pre.sizeBytes)]⟩
    let ev := [Event.remote (.createVolume pre.clientTarget pre.poolName poolReq)]
    (ev,
      match rem.createVolume pre.clientTarget pre.poolName poolReq with
      | .error e =>
        .error ⟨ToGRPCCode (some e),
          gs "CreateVolume: Failed to create volume " ++ pre.volName ++
            gs " in storage pool " ++ pre.poolName⟩
      | .ok _ => .ok (createVolumeResponse req pre))

/-- `CreateVolume` body after the try-lock: idempotency check against an
existing remote volume of the derived name, then creation. -/
def createVolumeLocked (d : Driver) (rem : Remote) (req : CreateVolumeRequest)
    (pre : CreatePre) : List Event × Except CsiErr CreateVolumeResponse :=
  let ev1 := [Event.remote (.getVolume pre.clientTarget pre.poolName pre.volName)]
  match rem.getVolume pre.clientTarget pre.poolName pre.volName with
  | .error e =>
    if !statusErrorCheck e 404 then
      (ev1, .error ⟨ToGRPCCode (some e),
        gs "CreateVolume: Failed to retrieve storage volume " ++ pre.volName ++
          gs " from pool " ++ pre.poolName⟩)
    else
      let r := createVolumeCreate d rem req pre
      (ev1 ++ r.1, r.2)
  | .ok _ =>
    (ev1, .error ⟨.alreadyExists,
      gs "CreateVolume: Volume with the same name " ++ pre.volName ++ gs " already exists"⟩)

/-- `controllerServer.CreateVolume`. -/
def CreateVolume (d : Driver) (rem : Remote) (locks : List GoStr)
    (req : CreateVolumeRequest) : List Event × Except CsiErr CreateVolumeResponse :=
  let p := createVolumePre d rem req
  match p.2 with
  | .error e => (p.1, .error e)
  | .ok pre =>
    let r := withLock (gs "CreateVolume") pre.volumeID locks (createVolumeLocked d rem req pre)
    (p.1 ++ r.1, r.2)

/-- A benign remote endpoint used to evaluate the handlers on concrete inputs:
one storage pool "default" backed by the remote "zfs" driver, no existing
volumes or snapshots, one instance with no devices, all mutations succeed. -/
def testRemote : Remote where
  client := .ok ()
  getStoragePool := fun _ => .ok ⟨gs "zfs"⟩
  getState := .ok ⟨[⟨gs "zfs", true⟩]⟩
  getVolume := fun _ _ _ => .error (.apiStatus 404 (gs "not found"))
  getInstance := fun _ _ => .ok (⟨[]⟩, gs "etag1")
  getSnapshot := fun _ _ _ _ => .error (.apiStatus 404 (gs "not found"))
  createVolume := fun _ _ _ => .ok ()
  deleteVolume := fun _ _ _ => .ok ()
  updateVolume := fun _ _ _ _ _ => .ok ()
  updateInstance := fun _ _ _ _ => .ok ()
  createSnapshot := fun _ _ _ _ => .ok ()
  deleteSnapshot := fun _ _ _ _ => .ok ()

/-- A non-clustered driver with no volume-name prefix override. -/
def testDriver : Driver := ⟨false, []⟩

/-- A 64 MiB volume record whose configured size is 67108864 bytes. -/
def testVolume64M : StorageVolume := ⟨gs "filesystem", [(gs "size", gs "67108864")]⟩

/-- The benign remote, with the volume `default/pvc-42` present at 64 MiB. -/
def testRemoteVol : Remote :=
  { testRemote with getVolume := fun _ _ _ => .ok (testVolume64M, gs "etag2") }

/-- A correctly attached disk device for volume `pvc-42` in pool `default`. -/
def testDevice : Device :=
  [(gs "source", gs "pvc-42"), (gs "pool", gs "default"), (gs "type", gs "disk")]

/-- The remote with volume `default/pvc-42` present and already attached to
the instance `node-1` via a matching disk device. -/
def testRemoteAttached : Remote :=
  { testRemoteVol with
    getInstance := fun _ _ => .ok (⟨[(gs "pvc-42", testDevice)]⟩, gs "etag3") }

/-- The benign remote, with a 32 MiB filesystem source volume `default/src-1`
present (and no other volume). -/
def testRemoteSource : Remote :=
  { testRemote with
    getVolume := fun _ _ name =>
      if name == gs "src-1" then
        .ok (⟨gs "filesystem", [(gs "size", gs "33554432")]⟩, gs "etagS")
      else .error (.apiStatus 404 (gs "not found")) }

/-- The benign remote, but every delete-style mutation answers Not-Found:
the state after the resource has already been deleted or detached. -/
def testRemoteGone : Remote :=
  { testRemote with
    deleteVolume := fun _ _ _ => .error (.apiStatus 404 (gs "gone"))
    deleteSnapshot := fun _ _ _ _ => .error (.apiStatus 404 (gs "gone"))
    updateInstance := fun _ _ _ _ => .error (.apiStatus 404 (gs "gone")) }

theorem goContains_append (a b : GoStr) (x : Char) :
    goContains (a ++ b) x = (goContains a x || goContains b x) := by
  induction a with
  | nil => simp [goContains]
  | cons c r ih => simp [goContains, ih, Bool.or_assoc]

theorem goCut_append (a b : GoStr) (x : Char) (h : goContains a x = false) :
    goCut (a ++ x :: b) x = (a, b, true) := by
  induction a with
  | nil => simp [goCut]
  | cons c r ih =>
    simp only [goContains, Bool.or_eq_false_iff] at h
    simp [List.cons_append, goCut, h.1, ih h.2]

theorem goSplit_single (s : GoStr) (x : Char) (h : goContains s x = false) :
    goSplit s x = [s] := by
  induction s with
  | nil => simp [goSplit]
  | cons c r ih =>
    simp only [goContains, Bool.or_eq_false_iff] at h
    simp [goSplit, beq_eq_false_iff_ne.mp h.1, ih h.2]

theorem goSplit_append (p v : GoStr) (x : Char)
    (hp : goContains p x = false) (hv : goContains v x = false) :
    goSplit (p ++ x :: v) x = [p, v] := by
  induction p with
  | nil => simp [goSplit, goSplit_single v x hv]
  | cons c r ih =>
    simp only [goContains, Bool.or_eq_false_iff] at hp
    simp [goSplit, beq_eq_false_iff_ne.mp hp.1, ih hp.2]

theorem splitVolumeID_getVolumeID (m p v : GoStr)
    (hm : goContains m ':' = false)
    (hpc : goContains p ':' = false) (hvc : goContains v ':' = false)
    (hps : goContains p '/' = false) (hvs : goContains v '/' = false) :
    splitVolumeID (getVolumeID m p v) = some (m, p, v) := by
  have hrest : goContains (p ++ ['/'] ++ v) ':' = false := by
    simp [goContains_append, goContains, hpc, hvc]
  by_cases hm0 : m = []
  · subst hm0
    simp only [getVolumeID, ne_eq, not_true_eq_false, if_false, if_neg]
    simp only [splitVolumeID, List.append_assoc, List.cons_append, List.nil_append] at *
    rw [show p ++ '/' :: v = p ++ ['/'] ++ v by simp] at *
    simp only [hrest, Bool.false_eq_true, if_false]
    have hne : p ++ ['/'] ++ v ≠ [] := by simp
    simp only [hne, if_neg, if_false]
    rw [show p ++ ['/'] ++ v = p ++ '/' :: v by simp]
    simp [goSplit_append p v '/' hps hvs]
  · simp only [getVolumeID, ne_eq, hm0, not_false_eq_true, if_true, if_pos]
    have hall : goContains (m ++ [':'] ++ (p ++ ['/'] ++ v)) ':' = true := by
      simp [goContains_append, goContains]
    simp only [splitVolumeID]
    rw [show m ++ [':'] ++ (p ++ ['/'] ++ v) = m ++ ':' :: (p ++ ['/'] ++ v) by simp] at *
    simp only [hall, if_true, if_pos, goCut_append m (p ++ ['/'] ++ v) ':' hm]
    have hne : p ++ ['/'] ++ v ≠ [] := by simp
    simp only [hne, if_neg, if_false]
    rw [show p ++ ['/'] ++ v = p ++ '/' :: v by simp]
    simp [goSplit_append p v '/' hps hvs]

example : splitVolumeID (gs "default/vol1") = some (gs "", gs "default", gs "vol1") := by decide
example : splitVolumeID (gs "m1:default/vol1") = some (gs "m1", gs "default", gs "vol1") := by decide
example : splitVolumeID (gs "pool/") = some (gs "", gs "pool", gs "") := by decide
example : splitVolumeID (gs "/vol") = some (gs "", gs "", gs "vol") := by decide
example : splitVolumeID (gs "a:b/v") = some (gs "a", gs "b", gs "v") := by decide
example : getVolumeID (gs "") (gs "a:b") (gs "v") = gs "a:b/v" := by decide


example : ToGRPCCode (some (.apiStatus 412 (gs "etag mismatch"))) = .unavailable := by decide
example : ToGRPCCode (some .ctxDeadlineExceeded) = .deadlineExceeded := by decide
example : ToGRPCCode (some .ctxCanceled) = .canceled := by decide
example : ToGRPCCode (some (.other (gs "boom"))) = .internal := by decide

example : goParseInt64 (gs "67108864") = some 67108864 := by decide
example : goParseInt64 (gs "") = none := by decide
example : goParseInt64 (gs "12a") = none := by decide
example : goFormatInt 67108864 = gs "67108864" := by decide


example : getByteSizeStringIEC 67108864 = gs "64.00MiB" := by decide

/-- C2: the error classifier maps an HTTP 412 precondition failure to
`Unavailable`, maps context deadline-exceeded and cancellation to the two
distinct codes `DeadlineExceeded` and `Canceled`, and maps any unrecognized
error (an unlisted HTTP status or a non-API error) to `Internal`. -/
theorem c2_to_grpc_code_mapping (msg : GoStr) (c : Nat)
    (hc : c ∉ [400, 401, 403, 404, 409, 412]) :
    ToGRPCCode (some (.apiStatus 412 msg)) = .unavailable ∧
    ToGRPCCode (some .ctxDeadlineExceeded) = .deadlineExceeded ∧
    ToGRPCCode (some .ctxCanceled) = .canceled ∧
    Code.deadlineExceeded ≠ Code.canceled ∧
    ToGRPCCode (some (.apiStatus c msg)) = .internal ∧
    ToGRPCCode (some (.other msg)) = .internal := by
  simp only [List.mem_cons, List.not_mem_nil, or_false, not_or] at hc
  obtain ⟨h1, h2, h3, h4, h5, h6⟩ := hc
  refine ⟨?_, ?_, ?_, ?_, ?_, ?_⟩
  · simp [ToGRPCCode, statusErrorCheck]
  · simp [ToGRPCCode, statusErrorCheck, isCtxDeadlineExceeded]
  · simp [ToGRPCCode, statusErrorCheck, isCtxDeadlineExceeded, isCtxCanceled]
  · simp
  · simp [ToGRPCCode, statusErrorCheck, isCtxDeadlineExceeded, isCtxCanceled,
      h1, h2, h3, h4, h5, h6]
  · simp [ToGRPCCode, statusErrorCheck, isCtxDeadlineExceeded, isCtxCanceled]

/-- Witness for C2 at the concrete unlisted status 500 and message `"e"`. -/
theorem c2_to_grpc_code_mapping_witness :
    (500 ∉ [400, 401, 403, 404, 409, 412]) ∧
    (ToGRPCCode (some (.apiStatus 412 (gs "e"))) = .unavailable ∧
      ToGRPCCode (some .ctxDeadlineExceeded) = .deadlineExceeded ∧
      ToGRPCCode (some .ctxCanceled) = .canceled ∧
      Code.deadlineExceeded ≠ Code.canceled ∧
      ToGRPCCode (some (.apiStatus 500 (gs "e"))) = .internal ∧
      ToGRPCCode (some (.other (gs "e"))) = .internal) :=
  ⟨by decide, c2_to_grpc_code_mapping (gs "e") 500 (by decide)⟩

/-- C6 counterexample: the triple `(locality, pool, name) = ("", "a:b", "v")`
satisfies the claim's precondition (pool and name non-empty without `/`,
locality without `:`), yet decoding the encoded ID does not return the
original triple: the colon inside the pool name is mistaken for a locality
separator. -/
theorem c6_roundtrip_counterexample :
    (gs "a:b" ≠ [] ∧ gs "v" ≠ [] ∧
      goContains (gs "a:b") '/' = false ∧ goContains (gs "v") '/' = false ∧
      goContains (gs "") ':' = false) ∧
    splitVolumeID (getVolumeID (gs "") (gs "a:b") (gs "v")) ≠
      some (gs "", gs "a:b", gs "v") ∧
    splitVolumeID (getVolumeID (gs "") (gs "a:b") (gs "v")) =
      some (gs "a", gs "b", gs "v") := by
  exact ⟨by decide, by decide, by decide⟩

/-- C6 (amended): the identifier round-trip
`splitVolumeID (getVolumeID locality pool name) = (locality, pool, name)`
holds for all triples with pool and name non-empty and free of `/` — provided
pool and name also contain no `:` — and locality free of `:`; and for an empty
locality the encoded form is `pool/name` with no colon prefix. -/
theorem c6_roundtrip_amended (m p v : GoStr)
    (hpn : p ≠ []) (hvn : v ≠ [])
    (hps : goContains p '/' = false) (hvs : goContains v '/' = false)
    (hm : goContains m ':' = false)
    (hpc : goContains p ':' = false) (hvc : goContains v ':' = false) :
    splitVolumeID (getVolumeID m p v) = some (m, p, v) ∧
    getVolumeID [] p v = p ++ ['/'] ++ v := by
  refine ⟨splitVolumeID_getVolumeID m p v hm hpc hvc hps hvs, ?_⟩
  simp [getVolumeID]

/-- Witness for C6 (amended) at the triple `("m1", "default", "vol1")`. -/
theorem c6_roundtrip_amended_witness :
    (gs "default" ≠ [] ∧ gs "vol1" ≠ [] ∧
      goContains (gs "default") '/' = false ∧ goContains (gs "vol1") '/' = false ∧
      goContains (gs "m1") ':' = false ∧
      goContains (gs "default") ':' = false ∧ goContains (gs "vol1") ':' = false) ∧
    (splitVolumeID (getVolumeID (gs "m1") (gs "default") (gs "vol1")) =
        some (gs "m1", gs "default", gs "vol1") ∧
      getVolumeID [] (gs "default") (gs "vol1") = gs "default" ++ ['/'] ++ gs "vol1") :=
  ⟨by decide,
    c6_roundtrip_amended (gs "m1") (gs "default") (gs "vol1")
      (by decide) (by decide) (by decide) (by decide) (by decide) (by decide) (by decide)⟩

/-- C10: `splitVolumeID` accepts any input whose remainder after the optional
`locality:` prefix splits at exactly one `/`, even when the pool or volume
segment is empty: `"pool/"` decodes to an empty volume name, `"/vol"` to an
empty pool name, and a `DeleteVolume` request carrying such an ID passes the
`InvalidArgument` format check (here it proceeds all the way to success
against a benign remote). -/
theorem c10_split_permissive (m p v : GoStr)
    (hm : goContains m ':' = false)
    (hpc : goContains p ':' = false) (hvc : goContains v ':' = false)
    (hps : goContains p '/' = false) (hvs : goContains v '/' = false) :
    splitVolumeID ((if m = [] then [] else m ++ [':']) ++ (p ++ ['/'] ++ v)) =
      some (m, p, v) ∧
    splitVolumeID (gs "pool/") = some (gs "", gs "pool", gs "") ∧
    splitVolumeID (gs "/vol") = some (gs "", gs "", gs "vol") ∧
    (DeleteVolume testDriver testRemote [] ⟨gs "default/"⟩).2 = .ok () := by
  refine ⟨?_, by decide, by decide, by rfl⟩
  have h := splitVolumeID_getVolumeID m p v hm hpc hvc hps hvs
  by_cases hm0 : m = []
  · subst hm0
    simpa [getVolumeID] using h
  · simpa [getVolumeID, hm0] using h

/-- Witness for C10 at the empty-volume-name input `("", "pool", "")`. -/
theorem c10_split_permissive_witness :
    (goContains (gs "") ':' = false ∧
      goContains (gs "pool") ':' = false ∧ goContains (gs "") ':' = false ∧
      goContains (gs "pool") '/' = false ∧ goContains (gs "") '/' = false) ∧
    (splitVolumeID ((if (gs "" : GoStr) = [] then [] else gs "" ++ [':']) ++
        (gs "pool" ++ ['/'] ++ gs "")) = some (gs "", gs "pool", gs "") ∧
      splitVolumeID (gs "pool/") = some (gs "", gs "pool", gs "") ∧
      splitVolumeID (gs "/vol") = some (gs "", gs "", gs "vol") ∧
      (DeleteVolume testDriver testRemote [] ⟨gs "default/"⟩).2 = .ok ()) :=
  ⟨by decide,
    c10_split_permissive (gs "") (gs "pool") (gs "")
      (by decide) (by decide) (by decide) (by decide) (by decide)⟩

/-- C4: for each delete-style operation (`DeleteVolume`, `DeleteSnapshot`,
`ControllerUnpublishVolume`) with a well-formed identifier, a Not-Found
response from the remote platform is converted to success, while any other
remote failure is returned as an error; hence (concrete scenarios) calling
the same delete twice in a row — the second against a remote where the
resource is already gone — succeeds both times. -/
theorem c4_idempotent_delete (d : Driver) (rem : Remote) (locks : List GoStr)
    (e : GoError) (vreq : DeleteVolumeRequest) (sreq : DeleteSnapshotRequest)
    (ureq : ControllerUnpublishVolumeRequest)
    (t p n st sp sv sn ut up un : GoStr)
    (hcl : rem.client = .ok ())
    (hv : splitVolumeID vreq.volumeId = some (t, p, n)) (hvl : vreq.volumeId ∉ locks)
    (hs : splitSnapshotID sreq.snapshotId = some (st, sp, sv, sn))
    (hsl : sreq.snapshotId ∉ locks)
    (hu : splitVolumeID ureq.volumeId = some (ut, up, un)) (hul : ureq.volumeId ∉ locks) :
    (rem.deleteVolume (boundTarget d t) p n = .error e →
      ((statusErrorCheck e 404 = true → (DeleteVolume d rem locks vreq).2 = .ok ()) ∧
        (statusErrorCheck e 404 = false → (DeleteVolume d rem locks vreq).2 =
          .error ⟨ToGRPCCode (some e),
            gs "DeleteVolume: Failed to delete volume " ++ n ++
              gs " from storage pool " ++ p⟩))) ∧
    (rem.deleteSnapshot (boundTarget d st) sp sv sn = .error e →
      ((statusErrorCheck e 404 = true → (DeleteSnapshot d rem locks sreq).2 = .ok ()) ∧
        (statusErrorCheck e 404 = false → (DeleteSnapshot d rem locks sreq).2 =
          .error ⟨ToGRPCCode (some e), gs "DeleteSnapshot: remote error"⟩))) ∧
    (rem.updateInstance [] ureq.nodeId ⟨[(un, none)]⟩ [] = .error e →
      ((statusErrorCheck e 404 = true →
          (ControllerUnpublishVolume d rem locks ureq).2 = .ok ()) ∧
        (statusErrorCheck e 404 = false → (ControllerUnpublishVolume d rem locks ureq).2 =
          .error ⟨ToGRPCCode (some e),
            gs "ControllerUnpublishVolume: Failed to detach volume " ++ un⟩))) ∧
    (DeleteVolume testDriver testRemote [] ⟨gs "default/pvc-1"⟩).2 = .ok () ∧
    (DeleteVolume testDriver testRemoteGone [] ⟨gs "default/pvc-1"⟩).2 = .ok () ∧
    (DeleteSnapshot testDriver testRemote [] ⟨gs "default/pvc-1/snap-1"⟩).2 = .ok () ∧
    (DeleteSnapshot testDriver testRemoteGone [] ⟨gs "default/pvc-1/snap-1"⟩).2 = .ok () ∧
    (ControllerUnpublishVolume testDriver testRemote []
      ⟨gs "default/pvc-1", gs "node-1"⟩).2 = .ok () ∧
    (ControllerUnpublishVolume testDriver testRemoteGone []
      ⟨gs "default/pvc-1", gs "node-1"⟩).2 = .ok () := by
  refine ⟨?_, ?_, ?_, by rfl, by rfl, by rfl, by rfl, by rfl, by rfl⟩
  · intro hdel
    refine ⟨fun his => ?_, fun hns => ?_⟩
    · simp only [DeleteVolume, hcl, hv, withLock, hvl, if_neg, deleteVolumeLocked, hdel, his]
      simp [hvl]
    · simp only [DeleteVolume, hcl, hv, withLock, hvl, if_neg, deleteVolumeLocked, hdel, hns]
      simp [hvl]
  · intro hdel
    refine ⟨fun his => ?_, fun hns => ?_⟩
    · simp only [DeleteSnapshot, hcl, hs, withLock, hsl, if_neg, deleteSnapshotLocked, hdel, his]
      simp [hsl]
    · simp only [DeleteSnapshot, hcl, hs, withLock, hsl, if_neg, deleteSnapshotLocked, hdel, hns]
      simp [hsl]
  · intro hdel
    refine ⟨fun his => ?_, fun hns => ?_⟩
    · simp only [ControllerUnpublishVolume, hcl, hu, withLock, hul, if_neg,
        controllerUnpublishLocked, hdel, his]
      simp [hul]
    · simp only [ControllerUnpublishVolume, hcl, hu, withLock, hul, if_neg,
        controllerUnpublishLocked, hdel, hns]
      simp [hul]

/-- Witness for C4: a second `DeleteVolume` of `default/pvc-1` against a
remote where the volume is already gone still succeeds. -/
theorem c4_idempotent_delete_witness :
    (DeleteVolume testDriver testRemoteGone [] ⟨gs "default/pvc-1"⟩).2 = .ok () :=
  ((c4_idempotent_delete testDriver testRemoteGone [] (.apiStatus 404 (gs "gone"))
    ⟨gs "default/pvc-1"⟩ ⟨gs "default/pvc-1/snap-1"⟩ ⟨gs "default/pvc-1", gs "node-1"⟩
    (gs "") (gs "default") (gs "pvc-1")
    (gs "") (gs "default") (gs "pvc-1") (gs "snap-1")
    (gs "") (gs "default") (gs "pvc-1")
    (by rfl) (by decide) (by simp) (by decide) (by simp) (by decide) (by simp)).1
    (by rfl)).1 (by rfl)

/-- C3: `ControllerExpandVolume` on an existing volume with a parseable current
size: a smaller requested size returns `InvalidArgument` with both sizes
rendered in binary (IEC) units in the message and no remote mutation; an equal
requested size is a no-op success with `NodeExpansionRequired = false` and no
remote mutation; a larger requested size issues exactly one remote size-update
and (when it succeeds) returns the new size with
`NodeExpansionRequired = false`. -/
theorem c3_expand_volume (d : Driver) (rem : Remote) (locks : List GoStr)
    (req : ControllerExpandVolumeRequest) (t p n etag : GoStr)
    (vol : StorageVolume) (oldSizeBytes : Int)
    (hcl : rem.client = .ok ())
    (hv : splitVolumeID req.volumeId = some (t, p, n))
    (hcap : ValidateVolumeCapabilities [req.volumeCapability] = none)
    (hl : req.volumeId ∉ locks)
    (hget : rem.getVolume (boundTarget d t) p n = .ok (vol, etag))
    (hparse : goParseInt64 (mapGet vol.config (gs "size")) = some oldSizeBytes) :
    (req.capacityRange.requiredBytes < oldSizeBytes →
      (ControllerExpandVolume d rem locks req).2 =
        .error ⟨.invalidArgument, expandShrinkMsg oldSizeBytes req.capacityRange.requiredBytes⟩ ∧
      List.IsInfix (getByteSizeStringIEC oldSizeBytes)
        (expandShrinkMsg oldSizeBytes req.capacityRange.requiredBytes) ∧
      List.IsInfix (getByteSizeStringIEC req.capacityRange.requiredBytes)
        (expandShrinkMsg oldSizeBytes req.capacityRange.requiredBytes) ∧
      ((ControllerExpandVolume d rem locks req).1.filter Event.isMutation) = []) ∧
    (req.capacityRange.requiredBytes = oldSizeBytes →
      (ControllerExpandVolume d rem locks req).2 = .ok ⟨req.capacityRange.requiredBytes, false⟩ ∧
      ((ControllerExpandVolume d rem locks req).1.filter Event.isMutation) = []) ∧
    (oldSizeBytes < req.capacityRange.requiredBytes →
      ((ControllerExpandVolume d rem locks req).1.filter Event.isMutation) =
        [Event.remote (.updateVolume (boundTarget d t) p n
          ⟨[(gs "size", goFormatInt req.capacityRange.requiredBytes)]⟩ etag)] ∧
      (rem.updateVolume (boundTarget d t) p n
          ⟨[(gs "size", goFormatInt req.capacityRange.requiredBytes)]⟩ etag = .ok () →
        (ControllerExpandVolume d rem locks req).2 = .ok ⟨req.capacityRange.requiredBytes, false⟩)) := by
  have hne : mapGet vol.config (gs "size") ≠ [] := by
    intro h
    rw [h] at hparse
    simp [goParseInt64, parseDigits] at hparse
  refine ⟨fun hlt => ?_, fun heq => ?_, fun hgt => ?_⟩
  · refine ⟨?_,
      ⟨gs "ExpandVolume: Requested size \"" ++
          getByteSizeStringIEC req.capacityRange.requiredBytes ++
          gs "\" is less than the current size \"", gs "\"", by simp [expandShrinkMsg]⟩,
      ⟨gs "ExpandVolume: Requested size \"",
        gs "\" is less than the current size \"" ++ getByteSizeStringIEC oldSizeBytes ++ gs "\"",
        by simp [expandShrinkMsg]⟩, ?_⟩
    · simp only [ControllerExpandVolume, hcl, hv, hcap, withLock, controllerExpandLocked,
        hget, hne, hparse, if_neg hne, if_pos hlt]
      simp [hl]
    · simp only [ControllerExpandVolume, hcl, hv, hcap, withLock, controllerExpandLocked,
        hget, hne, hparse, if_neg hne, if_pos hlt]
      simp [hl, Event.isMutation, RemoteOp.isMutation]
  · simp only [ControllerExpandVolume, hcl, hv, hcap, withLock, controllerExpandLocked,
      hget, hne, hparse, if_neg hne]
    simp [hl, heq, Event.isMutation, RemoteOp.isMutation]
  · have hnlt : ¬(req.capacityRange.requiredBytes < oldSizeBytes) := by omega
    have hneq : ¬(req.capacityRange.requiredBytes = oldSizeBytes) := by omega
    cases hup : rem.updateVolume (boundTarget d t) p n
        ⟨[(gs "size", goFormatInt req.capacityRange.requiredBytes)]⟩ etag with
    | error e =>
      simp only [ControllerExpandVolume, hcl, hv, hcap, withLock, controllerExpandLocked,
        hget, hne, hparse, if_neg hne, if_neg hnlt, if_neg hneq, hup]
      simp [hl, Event.isMutation, RemoteOp.isMutation]
    | ok u =>
      simp only [ControllerExpandVolume, hcl, hv, hcap, withLock, controllerExpandLocked,
        hget, hne, hparse, if_neg hne, if_neg hnlt, if_neg hneq, hup]
      simp [hl, Event.isMutation, RemoteOp.isMutation]

/-- Witness for C3: requesting 32 MiB on the existing 64 MiB volume
`default/pvc-42` fails with `InvalidArgument` and the IEC-rendered sizes. -/
theorem c3_expand_volume_witness :
    (ControllerExpandVolume testDriver testRemoteVol []
        ⟨gs "default/pvc-42", ⟨33554432⟩, ⟨.mount⟩⟩).2 =
      .error ⟨.invalidArgument, expandShrinkMsg 67108864 33554432⟩ :=
  ((c3_expand_volume testDriver testRemoteVol []
    ⟨gs "default/pvc-42", ⟨33554432⟩, ⟨.mount⟩⟩
    (gs "") (gs "default") (gs "pvc-42") (gs "etag2") testVolume64M 67108864
    (by rfl) (by decide) (by decide) (by simp) (by rfl) (by decide)).1 (by decide)).1

/-- C5: `ControllerPublishVolume` when the target instance already has a
device keyed by the volume's resource name: a device matching
`{type=disk, source=resource, pool=pool}` is a no-op success with no remote
mutation; a device differing in any of those three fields returns
`AlreadyExists` with no remote mutation. -/
theorem c5_publish_idempotent (d : Driver) (rem : Remote) (locks : List GoStr)
    (req : ControllerPublishVolumeRequest) (t p n etag0 etag1 : GoStr)
    (vol0 : StorageVolume) (inst : Instance) (dev : Device)
    (hcl : rem.client = .ok ())
    (hv : splitVolumeID req.volumeId = some (t, p, n))
    (hct : ParseContentType [req.volumeCapability] ≠ [])
    (hl : req.volumeId ∉ locks)
    (hvol : rem.getVolume (boundTarget d t) p n = .ok (vol0, etag0))
    (hinst : rem.getInstance (boundTarget d t) req.nodeId = .ok (inst, etag1))
    (hdev : mapGet? inst.devices n = some dev) :
    (mapGet dev (gs "type") = gs "disk" ∧ mapGet dev (gs "source") = n ∧
        mapGet dev (gs "pool") = p →
      (ControllerPublishVolume d rem locks req).2 = .ok () ∧
      ((ControllerPublishVolume d rem locks req).1.filter Event.isMutation) = []) ∧
    (¬(mapGet dev (gs "type") = gs "disk" ∧ mapGet dev (gs "source") = n ∧
        mapGet dev (gs "pool") = p) →
      (ControllerPublishVolume d rem locks req).2 =
        .error ⟨.alreadyExists,
          gs "ControllerPublishVolume: Device " ++ n ++ gs " already exists on node " ++
            req.nodeId ++ gs " but does not match expected parameters"⟩ ∧
      ((ControllerPublishVolume d rem locks req).1.filter Event.isMutation) = []) := by
  refine ⟨fun hmatch => ?_, fun hmis => ?_⟩
  · have hcond : ¬(mapGet dev (gs "type") ≠ gs "disk" ∨ mapGet dev (gs "source") ≠ n ∨
        mapGet dev (gs "pool") ≠ p) := by
      push_neg
      exact ⟨hmatch.1, hmatch.2.1, hmatch.2.2⟩
    simp only [ControllerPublishVolume, hcl, hv, if_neg hct, withLock,
      controllerPublishLocked, hvol, hinst, hdev, if_neg hcond]
    simp [hl, Event.isMutation, RemoteOp.isMutation]
  · have hcond : (mapGet dev (gs "type") ≠ gs "disk" ∨ mapGet dev (gs "source") ≠ n ∨
        mapGet dev (gs "pool") ≠ p) := by
      by_contra hc
      push_neg at hc
      exact hmis ⟨hc.1, hc.2.1, hc.2.2⟩
    simp only [ControllerPublishVolume, hcl, hv, if_neg hct, withLock,
      controllerPublishLocked, hvol, hinst, hdev, if_pos hcond]
    simp [hl, Event.isMutation, RemoteOp.isMutation]

/-- Witness for C5: republishing `default/pvc-42` to `node-1`, which already
has the matching disk device, succeeds without any remote mutation. -/
theorem c5_publish_idempotent_witness :
    (ControllerPublishVolume testDriver testRemoteAttached []
        ⟨gs "default/pvc-42", gs "node-1", ⟨.mount⟩⟩).2 = .ok () ∧
    ((ControllerPublishVolume testDriver testRemoteAttached []
        ⟨gs "default/pvc-42", gs "node-1", ⟨.mount⟩⟩).1.filter Event.isMutation) = [] :=
  (c5_publish_idempotent testDriver testRemoteAttached []
    ⟨gs "default/pvc-42", gs "node-1", ⟨.mount⟩⟩
    (gs "") (gs "default") (gs "pvc-42") (gs "etag2") (gs "etag3")
    testVolume64M ⟨[(gs "pvc-42", testDevice)]⟩ testDevice
    (by rfl) (by decide) (by decide) (by simp) (by rfl) (by rfl) (by rfl)).1
    (by decide)

/-- A capability set defining both or neither access type is rejected by
`ValidateVolumeCapabilities`. -/
theorem validate_some_of_bothOrNeither (volCaps : List VolumeCapability)
    (h : capsBothOrNeither volCaps = true) :
    ∃ e, ValidateVolumeCapabilities volCaps = some e := by
  simp only [capsBothOrNeither, hasBlockAccess, hasMountAccess,
    Bool.or_eq_true, Bool.and_eq_true, Bool.not_eq_true'] at h
  by_cases hlen : volCaps.length = 0
  · simp only [ValidateVolumeCapabilities, hlen, if_pos rfl]
    exact ⟨_, rfl⟩
  · rcases h with ⟨hb, hm⟩ | ⟨hb, hm⟩
    · simp only [ValidateVolumeCapabilities, hlen, if_neg hlen, hb, hm]
      simp
    · simp only [ValidateVolumeCapabilities, hlen, if_neg hlen, hb, hm]
      simp

/-- The validation prefix of `CreateVolume` rejects a non-positive size, an
invalid capability set, or a forbidden parameter key with `InvalidArgument`,
before any remote call. -/
theorem createVolumePre_invalid (d : Driver) (rem : Remote) (req : CreateVolumeRequest)
    (hcl : rem.client = .ok ())
    (hviol : req.capacityRange.requiredBytes < 1 ∨
      capsBothOrNeither req.volumeCapabilities = true ∨
      hasInvalidStorageClassParameter req.parameters = true) :
    ∃ m, createVolumePre d rem req = ([], .error ⟨.invalidArgument, m⟩) := by
  by_cases hb : (goCut req.name '-').2.2 = false
  · simp only [createVolumePre, hcl, hb]
    simp
  · have hb' : (goCut req.name '-').2.2 = true := by
      revert hb
      cases (goCut req.name '-').2.2 <;> simp
    rcases hviol with hsz | hcap | hpar
    · cases hvc : ValidateVolumeCapabilities req.volumeCapabilities with
      | some e =>
        simp only [createVolumePre, hcl, hb', hvc]
        simp
      | none =>
        by_cases hct : ParseContentType req.volumeCapabilities = []
        · simp only [createVolumePre, hcl, hb', hvc, hct]
          simp
        · simp only [createVolumePre, hcl, hb', hvc, if_neg hct, if_pos hsz]
          simp [hct]
    · obtain ⟨e, hvc⟩ := validate_some_of_bothOrNeither _ hcap
      simp only [createVolumePre, hcl, hb', hvc]
      simp
    · cases hvc : ValidateVolumeCapabilities req.volumeCapabilities with
      | some e =>
        simp only [createVolumePre, hcl, hb', hvc]
        simp
      | none =>
        by_cases hct : ParseContentType req.volumeCapabilities = []
        · simp only [createVolumePre, hcl, hb', hvc, hct]
          simp
        · by_cases hsz : req.capacityRange.requiredBytes < 1
          · simp only [createVolumePre, hcl, hb', hvc, if_neg hct, if_pos hsz]
            simp [hct]
          · have hfind : ∃ x, req.parameters.find?
                (fun e => !goHasPrefix e.1 (gs "csi.storage.k8s.io/") &&
                  !(e.1 == ParameterStoragePool)) = some x := by
              have hex := List.any_eq_true.mp hpar
              obtain ⟨x, hx, hpx⟩ := hex
              have hsome : (req.parameters.find?
                  (fun e => !goHasPrefix e.1 (gs "csi.storage.k8s.io/") &&
                    !(e.1 == ParameterStoragePool))).isSome := by
                rw [List.find?_isSome]
                exact ⟨x, hx, hpx⟩
              exact Option.isSome_iff_exists.mp hsome
            obtain ⟨x, hx⟩ := hfind
            simp only [createVolumePre, hcl, hb', hvc, if_neg hct, if_neg hsz, hx]
            simp [hct, hsz]

/-- C8: `CreateVolume` returns `InvalidArgument` — and performs no remote call
at all, in particular no volume creation — whenever the required capacity is
below 1 byte, the capability set defines both or neither of the block and
filesystem access types, or the parameter map contains a key that is neither
the storage-pool parameter nor a `csi.storage.k8s.io/` key. -/
theorem c8_create_volume_validation (d : Driver) (rem : Remote) (locks : List GoStr)
    (req : CreateVolumeRequest)
    (hcl : rem.client = .ok ())
    (hviol : req.capacityRange.requiredBytes < 1 ∨
      capsBothOrNeither req.volumeCapabilities = true ∨
      hasInvalidStorageClassParameter req.parameters = true) :
    (∃ m, (CreateVolume d rem locks req).2 = .error ⟨.invalidArgument, m⟩) ∧
    (CreateVolume d rem locks req).1 = [] := by
  obtain ⟨m, hm⟩ := createVolumePre_invalid d rem req hcl hviol
  exact ⟨⟨m, by simp [CreateVolume, hm]⟩, by simp [CreateVolume, hm]⟩

/-- Witness for C8 at a request with zero required bytes. -/
theorem c8_create_volume_validation_witness :
    (∃ m, (CreateVolume testDriver testRemote []
      ⟨gs "pvc-1", ⟨0⟩, [⟨.mount⟩], [(ParameterStoragePool, gs "default")], none, none⟩).2 =
        .error ⟨.invalidArgument, m⟩) ∧
    (CreateVolume testDriver testRemote []
      ⟨gs "pvc-1", ⟨0⟩, [⟨.mount⟩], [(ParameterStoragePool, gs "default")], none, none⟩).1 = [] :=
  c8_create_volume_validation testDriver testRemote []
    ⟨gs "pvc-1", ⟨0⟩, [⟨.mount⟩], [(ParameterStoragePool, gs "default")], none, none⟩
    (by rfl) (Or.inl (by decide))

/-- The validation and pool/driver-resolution prefix of `CreateVolume`
reduces, under a passing validation and successful pool/state lookups, to its
two read events and the computed pre-lock values. -/
theorem createVolumePre_ok (d : Driver) (rem : Remote) (req : CreateVolumeRequest)
    (pr uu ctp poolN : GoStr) (pool : StoragePool) (state : ServerState) (di : DriverInfo)
    (hcl : rem.client = .ok ())
    (hcut : goCut req.name '-' = (pr, uu, true))
    (hcap : ValidateVolumeCapabilities req.volumeCapabilities = none)
    (hctp : ParseContentType req.volumeCapabilities = ctp) (hctpne : ctp ≠ [])
    (hsz : 1 ≤ req.capacityRange.requiredBytes)
    (hpar : req.parameters.find?
      (fun e => !goHasPrefix e.1 (gs "csi.storage.k8s.io/") && !(e.1 == ParameterStoragePool)) = none)
    (hpool : mapGet req.parameters ParameterStoragePool = poolN) (hpoolne : poolN ≠ [])
    (hgp : rem.getStoragePool poolN = .ok pool)
    (hgs : rem.getState = .ok state)
    (hdi : state.supportedStorageDrivers.find? (fun di => di.name == pool.driver) = some di)
    (hceph : di.name ≠ gs "cephobject") :
    createVolumePre d rem req =
      ([Event.remote (.getStoragePool poolN), Event.remote .getState],
        .ok
          (let volName := (if d.volumeNamePrefix ≠ [] then d.volumeNamePrefix else pr) ++
            ['-'] ++ goRemoveAll uu '-'
          let target := if di.remote then [] else findPreferredTarget req.accessibilityRequirements
          { volName := volName
            contentType := ctp
            sizeBytes := req.capacityRange.requiredBytes
            poolName := poolN
            parameters := req.parameters
            driverName := di.name
            target := target
            accessibleTopology :=
              if !di.remote && !(target == []) then [[(AnnotationLXDClusterMember, target)]] else []
            clientTarget := if !di.remote && !(target == []) && d.isClustered then target else []
            volumeID := getVolumeID target poolN volName })) := by
  have hszn : ¬(req.capacityRange.requiredBytes < 1) := by omega
  simp only [createVolumePre, hcl, hcut, hcap, hctp, if_neg hctpne, hszn, if_false,
    hpar, hpool, if_neg hpoolne, hgp, hgs, hdi, beq_eq_false_iff_ne.mpr hceph,
    Bool.false_eq_true, if_false]
  simp

/-- C9: when a remote volume with the derived resource name already exists in
the requested pool, `CreateVolume` returns `AlreadyExists` and issues no
remote mutation — no reconciliation, no success response, no create. -/
theorem c9_create_existing_conflict (d : Driver) (rem : Remote) (locks : List GoStr)
    (req : CreateVolumeRequest) (pr uu ctp poolN : GoStr)
    (pool : StoragePool) (state : ServerState) (di : DriverInfo)
    (volName target ct vid : GoStr) (vol0 : StorageVolume) (etag0 : GoStr)
    (hcl : rem.client = .ok ())
    (hcut : goCut req.name '-' = (pr, uu, true))
    (hcap : ValidateVolumeCapabilities req.volumeCapabilities = none)
    (hctp : ParseContentType req.volumeCapabilities = ctp) (hctpne : ctp ≠ [])
    (hsz : 1 ≤ req.capacityRange.requiredBytes)
    (hpar : req.parameters.find?
      (fun e => !goHasPrefix e.1 (gs "csi.storage.k8s.io/") && !(e.1 == ParameterStoragePool)) = none)
    (hpool : mapGet req.parameters ParameterStoragePool = poolN) (hpoolne : poolN ≠ [])
    (hgp : rem.getStoragePool poolN = .ok pool)
    (hgs : rem.getState = .ok state)
    (hdi : state.supportedStorageDrivers.find? (fun di => di.name == pool.driver) = some di)
    (hceph : di.name ≠ gs "cephobject")
    (hvn : volName = (if d.volumeNamePrefix ≠ [] then d.volumeNamePrefix else pr) ++
      ['-'] ++ goRemoveAll uu '-')
    (htg : target = if di.remote then [] else findPreferredTarget req.accessibilityRequirements)
    (hctv : ct = if !di.remote && !(target == []) && d.isClustered then target else [])
    (hvid : vid = getVolumeID target poolN volName)
    (hl : vid ∉ locks)
    (hex : rem.getVolume ct poolN volName = .ok (vol0, etag0)) :
    (CreateVolume d rem locks req).2 =
      .error ⟨.alreadyExists,
        gs "CreateVolume: Volume with the same name " ++ volName ++ gs " already exists"⟩ ∧
    ((CreateVolume d rem locks req).1.filter Event.isMutation) = [] := by
  subst hvn htg hctv hvid
  have hpre := createVolumePre_ok d rem req pr uu ctp poolN pool state di
    hcl hcut hcap hctp hctpne hsz hpar hpool hpoolne hgp hgs hdi hceph
  constructor
  · simp only [CreateVolume, hpre, withLock, createVolumeLocked, hex]
    rw [if_neg hl]
  · simp only [CreateVolume, hpre, withLock, createVolumeLocked, hex]
    rw [if_neg hl]
    simp [Event.isMutation, RemoteOp.isMutation]

/-- Witness for C9: creating `pvc-1234-5678` in pool `default` when the volume
`default/pvc-12345678` already exists fails with `AlreadyExists` and no
remote mutation. -/
theorem c9_create_existing_conflict_witness :
    (CreateVolume testDriver testRemoteVol []
        ⟨gs "pvc-1234-5678", ⟨67108864⟩, [⟨.mount⟩],
          [(ParameterStoragePool, gs "default")], none, none⟩).2 =
      .error ⟨.alreadyExists,
        gs "CreateVolume: Volume with the same name " ++ gs "pvc-12345678" ++
          gs " already exists"⟩ ∧
    ((CreateVolume testDriver testRemoteVol []
        ⟨gs "pvc-1234-5678", ⟨67108864⟩, [⟨.mount⟩],
          [(ParameterStoragePool, gs "default")], none, none⟩).1.filter Event.isMutation) = [] :=
  c9_create_existing_conflict testDriver testRemoteVol []
    ⟨gs "pvc-1234-5678", ⟨67108864⟩, [⟨.mount⟩], [(ParameterStoragePool, gs "default")], none, none⟩
    (gs "pvc") (gs "1234-5678") (gs "filesystem") (gs "default")
    ⟨gs "zfs"⟩ ⟨[⟨gs "zfs", true⟩]⟩ ⟨gs "zfs", true⟩
    (gs "pvc-12345678") (gs "") (gs "") (gs "default/pvc-12345678")
    testVolume64M (gs "etag2")
    (by rfl) (by decide) (by decide) (by decide) (by decide) (by decide) (by decide)
    (by decide) (by decide) (by rfl) (by rfl) (by rfl) (by decide) (by decide)
    (by decide) (by decide) (by decide) (by simp) (by rfl)

/-- C7: `CreateVolume` with a content source (reached when the derived volume
does not yet exist remotely): a snapshot source returns `Unimplemented`; a
volume source with a mismatched content type returns `InvalidArgument`; a
volume source lacking a configured size returns `FailedPrecondition`; a volume
source whose configured size exceeds the requested capacity returns
`InvalidArgument` — each without any remote mutation; otherwise exactly one
remote copy-create request sized to the requested capacity is issued. -/
theorem c7_create_content_source (d : Driver) (rem : Remote) (locks : List GoStr)
    (req : CreateVolumeRequest) (pr uu ctp poolN : GoStr)
    (pool : StoragePool) (state : ServerState) (di : DriverInfo)
    (volName target ct vid : GoStr) (e4 : GoError)
    (hcl : rem.client = .ok ())
    (hcut : goCut req.name '-' = (pr, uu, true))
    (hcap : ValidateVolumeCapabilities req.volumeCapabilities = none)
    (hctp : ParseContentType req.volumeCapabilities = ctp) (hctpne : ctp ≠ [])
    (hsz : 1 ≤ req.capacityRange.requiredBytes)
    (hpar : req.parameters.find?
      (fun e => !goHasPrefix e.1 (gs "csi.storage.k8s.io/") && !(e.1 == ParameterStoragePool)) = none)
    (hpool : mapGet req.parameters ParameterStoragePool = poolN) (hpoolne : poolN ≠ [])
    (hgp : rem.getStoragePool poolN = .ok pool)
    (hgs : rem.getState = .ok state)
    (hdi : state.supportedStorageDrivers.find? (fun di => di.name == pool.driver) = some di)
    (hceph : di.name ≠ gs "cephobject")
    (hvn : volName = (if d.volumeNamePrefix ≠ [] then d.volumeNamePrefix else pr) ++
      ['-'] ++ goRemoveAll uu '-')
    (htg : target = if di.remote then [] else findPreferredTarget req.accessibilityRequirements)
    (hctv : ct = if !di.remote && !(target == []) && d.isClustered then target else [])
    (hvid : vid = getVolumeID target poolN volName)
    (hl : vid ∉ locks)
    (hnx : rem.getVolume ct poolN volName = .error e4)
    (hnx4 : statusErrorCheck e4 404 = true) :
    (∀ sid, req.volumeContentSource = some (.snapshot sid) →
      (CreateVolume d rem locks req).2 =
        .error ⟨.unimplemented,
          gs "CreateVolume: Using snapshot as volume source is not supported"⟩ ∧
      ((CreateVolume d rem locks req).1.filter Event.isMutation) = []) ∧
    (∀ svid st0 sp sv srcVol setag,
      req.volumeContentSource = some (.volume svid) →
      splitVolumeID svid = some (st0, sp, sv) →
      rem.getVolume (if d.isClustered then st0 else ct) sp sv = .ok (srcVol, setag) →
      ((srcVol.contentType ≠ ctp →
          (CreateVolume d rem locks req).2 =
            .error ⟨.invalidArgument,
              gs "CreateVolume: Content type " ++ srcVol.contentType ++ gs " of volume " ++
                sv ++ gs " does not match the requested volume content type " ++ ctp⟩ ∧
          ((CreateVolume d rem locks req).1.filter Event.isMutation) = []) ∧
        (srcVol.contentType = ctp → mapGet srcVol.config (gs "size") = [] →
          (CreateVolume d rem locks req).2 =
            .error ⟨.failedPrecondition,
              gs "CreateVolume: Cannot determine size of the source volume " ++ sv ++
                gs ": Size is not configured"⟩ ∧
          ((CreateVolume d rem locks req).1.filter Event.isMutation) = []) ∧
        (∀ sb, srcVol.contentType = ctp →
          goParseInt64 (mapGet srcVol.config (gs "size")) = some sb →
          ((req.capacityRange.requiredBytes < sb →
              (CreateVolume d rem locks req).2 =
                .error ⟨.invalidArgument,
                  gs "CreateVolume: Source volume size " ++ goFormatInt sb ++
                    gs " is larger than the volume size " ++
                    goFormatInt req.capacityRange.requiredBytes⟩ ∧
              ((CreateVolume d rem locks req).1.filter Event.isMutation) = []) ∧
            (sb ≤ req.capacityRange.requiredBytes →
              ((CreateVolume d rem locks req).1.filter Event.isMutation) =
                [Event.remote (.createVolume ct poolN
                  ⟨volName, gs "custom", ctp,
                    some ⟨SourceTypeCopy, sp, sv, if d.isClustered then st0 else []⟩,
                    createVolumeDescription req.parameters,
                    [(gs "size", goFormatInt req.capacityRange.requiredBytes)]⟩)]))))) := by
  subst hvn htg hctv hvid
  have hpre := createVolumePre_ok d rem req pr uu ctp poolN pool state di
    hcl hcut hcap hctp hctpne hsz hpar hpool hpoolne hgp hgs hdi hceph
  have hnx4' : (!statusErrorCheck e4 404) = false := by simp [hnx4]
  constructor
  · intro sid hsrc
    constructor
    · simp only [CreateVolume, hpre, withLock, createVolumeLocked, hnx, hnx4',
        createVolumeCreate, hsrc]
      rw [if_neg hl] <;> simp
    · simp only [CreateVolume, hpre, withLock, createVolumeLocked, hnx, hnx4',
        createVolumeCreate, hsrc]
      rw [if_neg hl] <;> simp [Event.isMutation, RemoteOp.isMutation]
  · intro svid st0 sp sv srcVol setag hsrc hsplit hsv
    refine ⟨fun hctne => ?_, fun hcteq hszempty => ?_,
      fun sb hcteq hparse => ⟨fun hlt => ?_, fun hle => ?_⟩⟩
    · constructor
      · simp only [CreateVolume, hpre, withLock, createVolumeLocked, hnx, hnx4',
          createVolumeCreate, hsrc, hsplit, hsv, if_pos hctne]
        rw [if_neg hl] <;> simp
      · simp only [CreateVolume, hpre, withLock, createVolumeLocked, hnx, hnx4',
          createVolumeCreate, hsrc, hsplit, hsv, if_pos hctne]
        rw [if_neg hl] <;> simp [Event.isMutation, RemoteOp.isMutation]
    · have hctne' : ¬(srcVol.contentType ≠ ctp) := by simp [hcteq]
      constructor
      · simp only [CreateVolume, hpre, withLock, createVolumeLocked, hnx, hnx4',
          createVolumeCreate, hsrc, hsplit, hsv, if_neg hctne', hszempty, if_pos rfl]
        rw [if_neg hl] <;> simp
      · simp only [CreateVolume, hpre, withLock, createVolumeLocked, hnx, hnx4',
          createVolumeCreate, hsrc, hsplit, hsv, if_neg hctne', hszempty, if_pos rfl]
        rw [if_neg hl] <;> simp [Event.isMutation, RemoteOp.isMutation]
    · have hctne' : ¬(srcVol.contentType ≠ ctp) := by simp [hcteq]
      have hszne : mapGet srcVol.config (gs "size") ≠ [] := by
        intro h
        rw [h] at hparse
        simp [goParseInt64, parseDigits] at hparse
      have hgt : sb > req.capacityRange.requiredBytes := by omega
      constructor
      · simp only [CreateVolume, hpre, withLock, createVolumeLocked, hnx, hnx4',
          createVolumeCreate, hsrc, hsplit, hsv, if_neg hctne', if_neg hszne, hparse,
          if_pos hgt]
        rw [if_neg hl] <;> simp
      · simp only [CreateVolume, hpre, withLock, createVolumeLocked, hnx, hnx4',
          createVolumeCreate, hsrc, hsplit, hsv, if_neg hctne', if_neg hszne, hparse,
          if_pos hgt]
        rw [if_neg hl] <;> simp [Event.isMutation, RemoteOp.isMutation]
    · have hctne' : ¬(srcVol.contentType ≠ ctp) := by simp [hcteq]
      have hszne : mapGet srcVol.config (gs "size") ≠ [] := by
        intro h
        rw [h] at hparse
        simp [goParseInt64, parseDigits] at hparse
      have hngt : ¬(sb > req.capacityRange.requiredBytes) := by omega
      simp only [CreateVolume, hpre, withLock, createVolumeLocked, hnx, hnx4',
        createVolumeCreate, hsrc, hsplit, hsv, if_neg hctne', if_neg hszne, hparse,
        if_neg hngt]
      rw [if_neg hl]
      split <;> simp [Event.isMutation, RemoteOp.isMutation]

/-- Witness for C7: cloning the 32 MiB volume `default/src-1` into a 64 MiB
volume issues exactly one remote copy-create sized to the requested 64 MiB. -/
theorem c7_create_content_source_witness :
    ((CreateVolume testDriver testRemoteSource []
        ⟨gs "pvc-1234-5678", ⟨67108864⟩, [⟨.mount⟩],
          [(ParameterStoragePool, gs "default")],
          some (.volume (gs "default/src-1")), none⟩).1.filter Event.isMutation) =
      [Event.remote (.createVolume (gs "") (gs "default")
        ⟨gs "pvc-12345678", gs "custom", gs "filesystem",
          some ⟨SourceTypeCopy, gs "default", gs "src-1", gs ""⟩,
          gs "Managed by Kubernetes PVC",
          [(gs "size", gs "67108864")]⟩)] :=
  (((c7_create_content_source testDriver testRemoteSource []
    ⟨gs "pvc-1234-5678", ⟨67108864⟩, [⟨.mount⟩],
      [(ParameterStoragePool, gs "default")], some (.volume (gs "default/src-1")), none⟩
    (gs "pvc") (gs "1234-5678") (gs "filesystem") (gs "default")
    ⟨gs "zfs"⟩ ⟨[⟨gs "zfs", true⟩]⟩ ⟨gs "zfs", true⟩
    (gs "pvc-12345678") (gs "") (gs "") (gs "default/pvc-12345678")
    (.apiStatus 404 (gs "not found"))
    (by rfl) (by decide) (by decide) (by decide) (by decide) (by decide) (by decide)
    (by decide) (by decide) (by rfl) (by rfl) (by rfl) (by decide) (by decide)
    (by decide) (by decide) (by decide) (by simp) (by rfl) (by decide)).2
    (gs "default/src-1") (gs "") (gs "default") (gs "src-1")
    ⟨gs "filesystem", [(gs "size", gs "33554432")]⟩ (gs "etagS")
    (by rfl) (by decide) (by rfl)).2.2
    33554432 (by rfl) (by decide)).2 (by decide)

theorem withLock_free_shape (opName key : GoStr) (locks : List GoStr)
    (body : List Event × Except CsiErr α) (h : key ∉ locks) :
    lockFreeShape key (withLock opName key locks body).1 :=
  ⟨[], body.1, by simp [withLock, h]⟩

theorem lockFreeShape_append (pre0 : List Event) (key : GoStr) (tr : List Event)
    (h : lockFreeShape key tr) : lockFreeShape key (pre0 ++ tr) := by
  obtain ⟨pre, body, rfl⟩ := h
  exact ⟨pre0 ++ pre, body, by simp⟩

/-- C1: for every controller RPC (`CreateVolume`, `DeleteVolume`,
`ControllerPublishVolume`, `ControllerUnpublishVolume`,
`ControllerExpandVolume`, `CreateSnapshot`, `DeleteSnapshot`) whose request
reaches the per-resource try-lock, if the resource's identifier key is held by
another in-flight operation the call returns `Aborted` without issuing any
remote mutation; if the key is free, the lock is acquired and — on every exit
path, i.e. for every possible remote behaviour — released at the end of the
locked section. -/
theorem c1_try_lock_serialization (d : Driver) (rem : Remote) (locks : List GoStr)
    (creq : CreateVolumeRequest) (pr uu ctp poolN : GoStr)
    (pool : StoragePool) (state : ServerState) (di : DriverInfo)
    (volName target ct vid : GoStr)
    (vreq : DeleteVolumeRequest) (vt vp vn : GoStr)
    (preq : ControllerPublishVolumeRequest) (pt pp pn : GoStr)
    (ureq : ControllerUnpublishVolumeRequest) (ut up un : GoStr)
    (ereq : ControllerExpandVolumeRequest) (et ep en : GoStr)
    (sreq : CreateSnapshotRequest) (spr suu sst ssp ssv skey : GoStr)
    (dreq : DeleteSnapshotRequest) (dt dp dv ds : GoStr)
    (hcl : rem.client = .ok ())
    (hcut : goCut creq.name '-' = (pr, uu, true))
    (hcap : ValidateVolumeCapabilities creq.volumeCapabilities = none)
    (hctp : ParseContentType creq.volumeCapabilities = ctp) (hctpne : ctp ≠ [])
    (hsz : 1 ≤ creq.capacityRange.requiredBytes)
    (hpar : creq.parameters.find?
      (fun e => !goHasPrefix e.1 (gs "csi.storage.k8s.io/") && !(e.1 == ParameterStoragePool)) = none)
    (hpool : mapGet creq.parameters ParameterStoragePool = poolN) (hpoolne : poolN ≠ [])
    (hgp : rem.getStoragePool poolN = .ok pool)
    (hgs : rem.getState = .ok state)
    (hdi : state.supportedStorageDrivers.find? (fun di => di.name == pool.driver) = some di)
    (hceph : di.name ≠ gs "cephobject")
    (hvn : volName = (if d.volumeNamePrefix ≠ [] then d.volumeNamePrefix else pr) ++
      ['-'] ++ goRemoveAll uu '-')
    (htg : target = if di.remote then [] else findPreferredTarget creq.accessibilityRequirements)
    (hctv : ct = if !di.remote && !(target == []) && d.isClustered then target else [])
    (hvid : vid = getVolumeID target poolN volName)
    (hv : splitVolumeID vreq.volumeId = some (vt, vp, vn))
    (hps : splitVolumeID preq.volumeId = some (pt, pp, pn))
    (hpct : ParseContentType [preq.volumeCapability] ≠ [])
    (hu : splitVolumeID ureq.volumeId = some (ut, up, un))
    (he : splitVolumeID ereq.volumeId = some (et, ep, en))
    (hecap : ValidateVolumeCapabilities [ereq.volumeCapability] = none)
    (hsname : sreq.name ≠ []) (hsid : sreq.sourceVolumeId ≠ [])
    (hscut : goCut sreq.name '-' = (spr, suu, true))
    (hssplit : splitVolumeID sreq.sourceVolumeId = some (sst, ssp, ssv))
    (hskey : skey = sreq.sourceVolumeId ++ ['/'] ++ (spr ++ ['-'] ++ goRemoveAll suu '-'))
    (hd : splitSnapshotID dreq.snapshotId = some (dt, dp, dv, ds)) :
    (vid ∈ locks →
      (∃ m, (CreateVolume d rem locks creq).2 = .error ⟨.aborted, m⟩) ∧
      ((CreateVolume d rem locks creq).1.filter Event.isMutation) = []) ∧
    (vid ∉ locks → lockFreeShape vid (CreateVolume d rem locks creq).1) ∧
    (vreq.volumeId ∈ locks →
      (∃ m, (DeleteVolume d rem locks vreq).2 = .error ⟨.aborted, m⟩) ∧
      ((DeleteVolume d rem locks vreq).1.filter Event.isMutation) = []) ∧
    (vreq.volumeId ∉ locks → lockFreeShape vreq.volumeId (DeleteVolume d rem locks vreq).1) ∧
    (preq.volumeId ∈ locks →
      (∃ m, (ControllerPublishVolume d rem locks preq).2 = .error ⟨.aborted, m⟩) ∧
      ((ControllerPublishVolume d rem locks preq).1.filter Event.isMutation) = []) ∧
    (preq.volumeId ∉ locks →
      lockFreeShape preq.volumeId (ControllerPublishVolume d rem locks preq).1) ∧
    (ureq.volumeId ∈ locks →
      (∃ m, (ControllerUnpublishVolume d rem locks ureq).2 = .error ⟨.aborted, m⟩) ∧
      ((ControllerUnpublishVolume d rem locks ureq).1.filter Event.isMutation) = []) ∧
    (ureq.volumeId ∉ locks →
      lockFreeShape ureq.volumeId (ControllerUnpublishVolume d rem locks ureq).1) ∧
    (ereq.volumeId ∈ locks →
      (∃ m, (ControllerExpandVolume d rem locks ereq).2 = .error ⟨.aborted, m⟩) ∧
      ((ControllerExpandVolume d rem locks ereq).1.filter Event.isMutation) = []) ∧
    (ereq.volumeId ∉ locks →
      lockFreeShape ereq.volumeId (ControllerExpandVolume d rem locks ereq).1) ∧
    (skey ∈ locks →
      (∃ m, (CreateSnapshot d rem locks sreq).2 = .error ⟨.aborted, m⟩) ∧
      ((CreateSnapshot d rem locks sreq).1.filter Event.isMutation) = []) ∧
    (skey ∉ locks → lockFreeShape skey (CreateSnapshot d rem locks sreq).1) ∧
    (dreq.snapshotId ∈ locks →
      (∃ m, (DeleteSnapshot d rem locks dreq).2 = .error ⟨.aborted, m⟩) ∧
      ((DeleteSnapshot d rem locks dreq).1.filter Event.isMutation) = []) ∧
    (dreq.snapshotId ∉ locks → lockFreeShape dreq.snapshotId (DeleteSnapshot d rem locks dreq).1) := by
  subst hvn htg hctv hvid hskey
  have hpre := createVolumePre_ok d rem creq pr uu ctp poolN pool state di
    hcl hcut hcap hctp hctpne hsz hpar hpool hpoolne hgp hgs hdi hceph
  refine ⟨fun hin => ⟨?_, ?_⟩, fun hnin => ?_, fun hin => ⟨?_, ?_⟩, fun hnin => ?_,
    fun hin => ⟨?_, ?_⟩, fun hnin => ?_, fun hin => ⟨?_, ?_⟩, fun hnin => ?_,
    fun hin => ⟨?_, ?_⟩, fun hnin => ?_, fun hin => ⟨?_, ?_⟩, fun hnin => ?_,
    fun hin => ⟨?_, ?_⟩, fun hnin => ?_⟩
  · simp only [CreateVolume, hpre, withLock]
    rw [if_pos hin]
    exact ⟨_, rfl⟩
  · simp only [CreateVolume, hpre, withLock]
    rw [if_pos hin]
    simp [Event.isMutation, RemoteOp.isMutation]
  · simp only [CreateVolume, hpre]
    exact lockFreeShape_append _ _ _ (withLock_free_shape _ _ _ _ hnin)
  · simp only [DeleteVolume, hcl, hv, withLock]
    rw [if_pos hin]
    exact ⟨_, rfl⟩
  · simp only [DeleteVolume, hcl, hv, withLock]
    rw [if_pos hin]
    rfl
  · simp only [DeleteVolume, hcl, hv]
    exact withLock_free_shape _ _ _ _ hnin
  · simp only [ControllerPublishVolume, hcl, hps, if_neg hpct, withLock]
    rw [if_pos hin]
    exact ⟨_, rfl⟩
  · simp only [ControllerPublishVolume, hcl, hps, if_neg hpct, withLock]
    rw [if_pos hin]
    rfl
  · simp only [ControllerPublishVolume, hcl, hps, if_neg hpct]
    exact withLock_free_shape _ _ _ _ hnin
  · simp only [ControllerUnpublishVolume, hcl, hu, withLock]
    rw [if_pos hin]
    exact ⟨_, rfl⟩
  · simp only [ControllerUnpublishVolume, hcl, hu, withLock]
    rw [if_pos hin]
    rfl
  · simp only [ControllerUnpublishVolume, hcl, hu]
    exact withLock_free_shape _ _ _ _ hnin
  · simp only [ControllerExpandVolume, hcl, he, hecap, withLock]
    rw [if_pos hin]
    exact ⟨_, rfl⟩
  · simp only [ControllerExpandVolume, hcl, he, hecap, withLock]
    rw [if_pos hin]
    rfl
  · simp only [ControllerExpandVolume, hcl, he, hecap]
    exact withLock_free_shape _ _ _ _ hnin
  · simp only [CreateSnapshot, hcl, if_neg hsname, if_neg hsid, hscut, hssplit, withLock]
    rw [if_pos hin]
    exact ⟨_, rfl⟩
  · simp only [CreateSnapshot, hcl, if_neg hsname, if_neg hsid, hscut, hssplit, withLock]
    rw [if_pos hin]
    rfl
  · simp only [CreateSnapshot, hcl, if_neg hsname, if_neg hsid, hscut, hssplit]
    exact withLock_free_shape (gs "CreateSnapshot") _ locks
      (createSnapshotLocked rem (boundTarget d sst) ssp ssv
        (spr ++ ['-'] ++ goRemoveAll suu '-')) hnin
  · simp only [DeleteSnapshot, hcl, hd, withLock]
    rw [if_pos hin]
    exact ⟨_, rfl⟩
  · simp only [DeleteSnapshot, hcl, hd, withLock]
    rw [if_pos hin]
    rfl
  · simp only [DeleteSnapshot, hcl, hd]
    exact withLock_free_shape _ _ _ _ hnin

/-- Witness for C1: with `default/pvc-12345678` locked by an in-flight
operation, `CreateVolume` deriving that same ID aborts without remote
mutation, while `DeleteVolume` of the unlocked `default/pvc-1` acquires and
releases its lock. -/
theorem c1_try_lock_serialization_witness :
    ((∃ m, (CreateVolume testDriver testRemote [gs "default/pvc-12345678"]
        ⟨gs "pvc-1234-5678", ⟨67108864⟩, [⟨.mount⟩],
          [(ParameterStoragePool, gs "default")], none, none⟩).2 =
          .error ⟨.aborted, m⟩) ∧
      ((CreateVolume testDriver testRemote [gs "default/pvc-12345678"]
        ⟨gs "pvc-1234-5678", ⟨67108864⟩, [⟨.mount⟩],
          [(ParameterStoragePool, gs "default")], none, none⟩).1.filter Event.isMutation) = []) ∧
    lockFreeShape (gs "default/pvc-1")
      (DeleteVolume testDriver testRemote [gs "default/pvc-12345678"]
        ⟨gs "default/pvc-1"⟩).1 := by
  have h := c1_try_lock_serialization testDriver testRemote [gs "default/pvc-12345678"]
    ⟨gs "pvc-1234-5678", ⟨67108864⟩, [⟨.mount⟩], [(ParameterStoragePool, gs "default")], none, none⟩
    (gs "pvc") (gs "1234-5678") (gs "filesystem") (gs "default")
    ⟨gs "zfs"⟩ ⟨[⟨gs "zfs", true⟩]⟩ ⟨gs "zfs", true⟩
    (gs "pvc-12345678") (gs "") (gs "") (gs "default/pvc-12345678")
    ⟨gs "default/pvc-1"⟩ (gs "") (gs "default") (gs "pvc-1")
    ⟨gs "default/pvc-1", gs "node-1", ⟨.mount⟩⟩ (gs "") (gs "default") (gs "pvc-1")
    ⟨gs "default/pvc-1", gs "node-1"⟩ (gs "") (gs "default") (gs "pvc-1")
    ⟨gs "default/pvc-1", ⟨67108864⟩, ⟨.mount⟩⟩ (gs "") (gs "default") (gs "pvc-1")
    ⟨gs "snap-1234-5678", gs "default/pvc-1"⟩ (gs "snap") (gs "1234-5678")
    (gs "") (gs "default") (gs "pvc-1") (gs "default/pvc-1/snap-12345678")
    ⟨gs "default/pvc-1/snap-1"⟩ (gs "") (gs "default") (gs "pvc-1") (gs "snap-1")
    (by rfl) (by decide) (by decide) (by decide) (by decide) (by decide) (by decide)
    (by decide) (by decide) (by rfl) (by rfl) (by rfl) (by decide) (by decide)
    (by rfl) (by rfl) (by decide) (by decide) (by decide) (by decide) (by decide)
    (by decide) (by decide) (by decide) (by decide) (by decide) (by decide) (by decide)
    (by decide)
  exact ⟨h.1 (by decide), h.2.2.2.1 (by decide)⟩
